import Mathlib

/-!
# PBR material shader (`src/materialsystem/stdshaders/pbr_dx9.cpp`)

A shallow embedding of the shader's three entry points:

* `SHADER_INIT_PARAMS` — a function on the material parameter array;
* the snapshot branch of `SHADER_DRAW` — the list of calls made on `pShaderShadow`;
* the dynamic branch of `SHADER_DRAW` — the list of calls made on `pShaderAPI`.

Device objects are modelled by the log of calls made on them, in program order.
Values of C type `float` are modelled by exact rationals (rounding, NaN and
infinities are outside the model); C `int` values are modelled by `Int`.
Everything the engine supplies (material flags, console variables, hardware
configuration, per-draw renderer state) is an explicit input record.
-/

namespace PBR

/-! ## Sampler assignment (pbr_dx9.cpp, lines 15-27) -/

abbrev Sampler_t := Nat

abbrev SAMPLER_BASETEXTURE : Sampler_t := 0
abbrev SAMPLER_NORMAL : Sampler_t := 1
abbrev SAMPLER_ENVMAP : Sampler_t := 2
abbrev SAMPLER_LIGHTWARP : Sampler_t := 3
abbrev SAMPLER_SHADOWDEPTH : Sampler_t := 4
abbrev SAMPLER_RANDOMROTATION : Sampler_t := 5
abbrev SAMPLER_FLASHLIGHT : Sampler_t := 6
abbrev SAMPLER_LIGHTMAP : Sampler_t := 7
abbrev SAMPLER_MRAO : Sampler_t := 10
abbrev SAMPLER_EMISSIVE : Sampler_t := 11
abbrev SAMPLER_SPECULAR : Sampler_t := 12
abbrev SAMPLER_SSAO : Sampler_t := 13
abbrev SAMPLER_THICKNESS : Sampler_t := 14

/-! ## Engine-side types used by the shader -/

/-- An engine texture object (`ITexture*` when non-null); `mappingWidth` is what
`GetMappingWidth()` returns, a C `int`. -/
structure ITexture where
  id : Nat
  mappingWidth : Int
  deriving DecidableEq, Repr

/-- The well-known textures passed to `BindStandardTexture`. -/
inductive StandardTextureId
  | TEXTURE_GREY
  | TEXTURE_BLACK
  | TEXTURE_WHITE
  | TEXTURE_NORMALMAP_FLAT
  | TEXTURE_LIGHTMAP_BUMPED
  | TEXTURE_SHADOW_NOISE_2D
  deriving DecidableEq, Repr

/-- Result type of `EvaluateBlendRequirements`. -/
inductive BlendType_t
  | BT_NONE
  | BT_BLEND
  | BT_ADD
  | BT_BLENDADD
  deriving DecidableEq, Repr

/-- Scene fog modes returned by `GetSceneFogMode`. -/
inductive MaterialFogMode_t
  | MATERIAL_FOG_NONE
  | MATERIAL_FOG_LINEAR
  | MATERIAL_FOG_LINEAR_BELOW_FOG_Z
  deriving DecidableEq, Repr

/-- HDR modes returned by `GetHDRType`. -/
inductive HDRType_t
  | HDR_TYPE_NONE
  | HDR_TYPE_INTEGER
  | HDR_TYPE_FLOAT
  deriving DecidableEq, Repr

/-- Modelled from the spec: the material variable class `IMaterialVar` is declared in
engine headers that are not among the sources.  A variable may be "undefined"
distinctly from zero; the record lists the observations the shader makes of it
(`IsDefined`, `IsTexture`, `GetStringValue`, `GetIntValue`, `GetFloatValue`,
`GetVecValue`, `GetTextureValue`). -/
structure MaterialVar where
  isDefined : Bool
  isTexture : Bool
  stringValue : String
  intValue : Int
  floatValue : ℚ
  vecValue : List ℚ
  textureValue : Option ITexture
  deriving DecidableEq

/-- Modelled from the spec: `IMaterialVar::SetStringValue` (the store's `set`), declared
outside the sources.  It stores the string and leaves the variable defined; the
other observations are kept as they were. -/
def MaterialVar.SetStringValue (v : MaterialVar) (s : String) : MaterialVar :=
  { v with isDefined := true, stringValue := s }

/-- Modelled from the spec: `IMaterialVar::SetFloatValue`, declared outside the sources.
It stores the number and leaves the variable defined. -/
def MaterialVar.SetFloatValue (v : MaterialVar) (x : ℚ) : MaterialVar :=
  { v with isDefined := true, floatValue := x }

/-- The parameter array `IMaterialVar** params`, indexed by parameter number. -/
abbrev Params := Int → MaterialVar

/-- Replace the variable stored at index `i`. -/
def Params.set (params : Params) (i : Int) (v : MaterialVar) : Params :=
  fun j => if j = i then v else params j

/-! ## Parameter indices

The first block is the engine's standard parameter enumeration
(`ShaderMaterialVars_t`); the shader's own parameters follow, numbered from
`NUM_SHADER_MATERIAL_VARS` in the order of the `SHADER_PARAM` lines 83-109. -/

abbrev FLAGS : Int := 0
abbrev FLAGS_DEFINED : Int := 1
abbrev FLAGS2 : Int := 2
abbrev FLAGS_DEFINED2 : Int := 3
abbrev COLOR : Int := 4
abbrev ALPHA : Int := 5
abbrev BASETEXTURE : Int := 6
abbrev FRAME : Int := 7
abbrev BASETEXTURETRANSFORM : Int := 8
abbrev FLASHLIGHTTEXTURE : Int := 9
abbrev FLASHLIGHTTEXTUREFRAME : Int := 10
abbrev COLOR2 : Int := 11
abbrev SRGBTINT : Int := 12
abbrev NUM_SHADER_MATERIAL_VARS : Int := 13

abbrev ALPHATESTREFERENCE : Int := 13
abbrev ENVMAP : Int := 14
abbrev MRAOTEXTURE : Int := 15
abbrev EMISSIONTEXTURE : Int := 16
abbrev NORMALTEXTURE : Int := 17
abbrev BUMPMAP : Int := 18
abbrev USEENVAMBIENT : Int := 19
abbrev SPECULARTEXTURE : Int := 20
abbrev LIGHTWARPTEXTURE : Int := 21
abbrev PARALLAX : Int := 22
abbrev PARALLAXDEPTH : Int := 23
abbrev PARALLAXCENTER : Int := 24
abbrev METALNESSFACTOR : Int := 25
abbrev ROUGHNESSFACTOR : Int := 26
abbrev EMISSIVEFACTOR : Int := 27
abbrev SPECULARFACTOR : Int := 28
abbrev AOFACTOR : Int := 29
abbrev SSAOFACTOR : Int := 30
abbrev SUBSURFACESCATTERING : Int := 31
abbrev SSSTHICKNESS : Int := 32
abbrev SSSCOLOR : Int := 33
abbrev SSSINTENSITY : Int := 34
abbrev SSSPOWERSCALE : Int := 35
abbrev ENABLESSR : Int := 36
abbrev SSRINTENSITY : Int := 37
abbrev SSRQUALITY : Int := 38
abbrev SSRROUGHNESSTHRESHOLD : Int := 39

/-! ## `PBR_Vars_t` and `SetupVars` (lines 38-78 and 112-147) -/

/-- The index record `PBR_Vars_t`. -/
structure PBR_Vars_t where
  baseTexture : Int
  baseColor : Int
  normalTexture : Int
  bumpMap : Int
  envMap : Int
  baseTextureFrame : Int
  baseTextureTransform : Int
  useParallax : Int
  parallaxDepth : Int
  parallaxCenter : Int
  alphaTestReference : Int
  flashlightTexture : Int
  flashlightTextureFrame : Int
  emissionTexture : Int
  mraoTexture : Int
  useEnvAmbient : Int
  specularTexture : Int
  lightwarpTexture : Int
  metalnessFactor : Int
  roughnessFactor : Int
  emissiveFactor : Int
  specularFactor : Int
  aoFactor : Int
  ssaoFactor : Int
  useSubsurfaceScattering : Int
  thicknessTexture : Int
  sssColor : Int
  sssIntensity : Int
  sssPowerScale : Int
  useSSR : Int
  ssrIntensity : Int
  ssrQuality : Int
  ssrRoughnessThreshold : Int
  deriving DecidableEq

/-- The constructor of `PBR_Vars_t`: `memset(this, 0xFF, sizeof(*this))` makes every
field `-1`. -/
def PBR_Vars_t.init : PBR_Vars_t :=
  { baseTexture := -1, baseColor := -1, normalTexture := -1, bumpMap := -1, envMap := -1,
    baseTextureFrame := -1, baseTextureTransform := -1, useParallax := -1,
    parallaxDepth := -1, parallaxCenter := -1, alphaTestReference := -1,
    flashlightTexture := -1, flashlightTextureFrame := -1, emissionTexture := -1,
    mraoTexture := -1, useEnvAmbient := -1, specularTexture := -1, lightwarpTexture := -1,
    metalnessFactor := -1, roughnessFactor := -1, emissiveFactor := -1,
    specularFactor := -1, aoFactor := -1, ssaoFactor := -1, useSubsurfaceScattering := -1,
    thicknessTexture := -1, sssColor := -1, sssIntensity := -1, sssPowerScale := -1,
    useSSR := -1, ssrIntensity := -1, ssrQuality := -1, ssrRoughnessThreshold := -1 }

/-- The function `SetupVars(PBR_Vars_t& info)`. -/
def SetupVars (info : PBR_Vars_t) : PBR_Vars_t :=
  { info with
    baseTexture := BASETEXTURE
    baseColor := COLOR
    normalTexture := NORMALTEXTURE
    bumpMap := BUMPMAP
    baseTextureFrame := FRAME
    baseTextureTransform := BASETEXTURETRANSFORM
    alphaTestReference := ALPHATESTREFERENCE
    flashlightTexture := FLASHLIGHTTEXTURE
    flashlightTextureFrame := FLASHLIGHTTEXTUREFRAME
    envMap := ENVMAP
    emissionTexture := EMISSIONTEXTURE
    mraoTexture := MRAOTEXTURE
    useEnvAmbient := USEENVAMBIENT
    specularTexture := SPECULARTEXTURE
    lightwarpTexture := LIGHTWARPTEXTURE
    useParallax := PARALLAX
    parallaxDepth := PARALLAXDEPTH
    parallaxCenter := PARALLAXCENTER
    metalnessFactor := METALNESSFACTOR
    roughnessFactor := ROUGHNESSFACTOR
    emissiveFactor := EMISSIVEFACTOR
    specularFactor := SPECULARFACTOR
    aoFactor := AOFACTOR
    ssaoFactor := SSAOFACTOR
    useSubsurfaceScattering := SUBSURFACESCATTERING
    thicknessTexture := SSSTHICKNESS
    sssColor := SSSCOLOR
    sssIntensity := SSSINTENSITY
    sssPowerScale := SSSPOWERSCALE
    useSSR := ENABLESSR
    ssrIntensity := SSRINTENSITY
    ssrQuality := SSRQUALITY
    ssrRoughnessThreshold := SSRROUGHNESSTHRESHOLD }

/-! ## Engine inputs -/

/-- The console variables declared on lines 29-36, as read by `GetBool`, `GetInt`
and `GetFloat`. -/
structure ConVars where
  mat_fullbright : Int
  mat_specular : Bool
  mat_pbr_parallaxmap : Bool
  mat_pbr_subsurfacescattering : Bool
  mat_pbr_ssr : Bool
  mat_pbr_ssr_intensity : ℚ
  mat_pbr_ssr_step_count : Int
  mat_pbr_ssr_roughness_threshold : ℚ

/-- The hardware queries made through `g_pHardwareConfig`. -/
structure HardwareConfig where
  SupportsBorderColor : Bool
  GetHDRType : HDRType_t
  GetShadowFilterMode : Int

/-- The material flags tested with `IS_FLAG_SET` and `IS_FLAG2_SET`. -/
structure MaterialFlags where
  MATERIAL_VAR_ALPHATEST : Bool
  MATERIAL_VAR_MODEL : Bool
  MATERIAL_VAR_NO_DEBUG_OVERRIDE : Bool
  MATERIAL_VAR2_USE_GBUFFER0 : Bool
  MATERIAL_VAR2_USE_GBUFFER1 : Bool

/-- What both branches of `SHADER_DRAW` read besides the parameter array. -/
structure ShaderContext where
  flags : MaterialFlags
  cvars : ConVars
  hw : HardwareConfig
  -- the base-class query UsingFlashlight(params)
  UsingFlashlight : Bool
  -- the base-class function EvaluateBlendRequirements(textureVar, isBaseTexture)
  EvaluateBlendRequirements : Int → Bool → BlendType_t
  -- the engine constant of that name
  ENABLE_FIXED_LIGHTING_OUTPUTNORMAL_AND_DEPTH : Int
  -- the shadow-state query GetLightMapScaleFactor()
  GetLightMapScaleFactor : ℚ
  -- the helper GetFloatParam(index, params, default) of the base shader header
  GetFloatParam : Int → Params → ℚ → ℚ

/-! ## `SHADER_INIT_PARAMS` (lines 149-181) -/

/-- Modelled from the spec: the helper macro `INIT_FLOAT_PARM(name, value)` comes from an
engine header that is not among the sources; it supplies a default for a
parameter that is undefined and leaves a defined one alone. -/
def INIT_FLOAT_PARM (params : Params) (name : Int) (value : ℚ) : Params :=
  if !(params name).isDefined then params.set name ((params name).SetFloatValue value)
  else params

/-- The body of `SHADER_INIT_PARAMS()`, statement by statement. -/
def SHADER_INIT_PARAMS (hw : HardwareConfig) (params0 : Params) : Params :=
  let params1 :=
    if (params0 NORMALTEXTURE).isDefined then
      params0.set BUMPMAP ((params0 BUMPMAP).SetStringValue (params0 NORMALTEXTURE).stringValue)
    else params0
  let params2 :=
    if !(params1 BUMPMAP).isDefined then
      params1.set BUMPMAP ((params1 BUMPMAP).SetStringValue "dev/flat_normal")
    else params1
  let params3 :=
    if !(params2 MRAOTEXTURE).isDefined then
      params2.set MRAOTEXTURE ((params2 MRAOTEXTURE).SetStringValue "dev/pbr_mraotexture")
    else params2
  let params4 :=
    if !(params3 ENVMAP).isDefined then
      params3.set ENVMAP ((params3 ENVMAP).SetStringValue "env_cubemap")
    else params3
  let params5 :=
    if hw.SupportsBorderColor then
      params4.set FLASHLIGHTTEXTURE
        ((params4 FLASHLIGHTTEXTURE).SetStringValue "effects/flashlight_border")
    else
      params4.set FLASHLIGHTTEXTURE
        ((params4 FLASHLIGHTTEXTURE).SetStringValue "effects/flashlight001")
  let params6 := INIT_FLOAT_PARM params5 METALNESSFACTOR 1
  let params7 := INIT_FLOAT_PARM params6 ROUGHNESSFACTOR 1
  let params8 := INIT_FLOAT_PARM params7 AOFACTOR 1
  let params9 := INIT_FLOAT_PARM params8 SSAOFACTOR 1
  let params10 := INIT_FLOAT_PARM params9 SSSINTENSITY 1
  let params11 := INIT_FLOAT_PARM params10 SSSPOWERSCALE 1
  let params12 := INIT_FLOAT_PARM params11 SSRINTENSITY 1
  let params13 := INIT_FLOAT_PARM params12 SSRQUALITY 8
  INIT_FLOAT_PARM params13 SSRROUGHNESSTHRESHOLD (6 / 10)

/-! ## The locals computed at the top of `SHADER_DRAW` (lines 254-273) -/

/-- The booleans and the blend type evaluated before the branch on
`IsSnapshotting()`. -/
structure DrawLocals where
  info : PBR_Vars_t
  bHasBaseTexture : Bool
  bHasNormalTexture : Bool
  bHasMraoTexture : Bool
  bHasEmissionTexture : Bool
  bHasEnvTexture : Bool
  bIsAlphaTested : Bool
  bHasFlashlight : Bool
  bHasColor : Bool
  bLightMapped : Bool
  bUseEnvAmbient : Bool
  bHasSpecularTexture : Bool
  bLightwarpTexture : Bool
  bHasSSS : Bool
  bHasSSR : Bool
  nBlendType : BlendType_t
  bFullyOpaque : Bool

/-- Lines 254-273 of `SHADER_DRAW`. -/
def drawLocals (params : Params) (ctx : ShaderContext) : DrawLocals :=
  let info := SetupVars PBR_Vars_t.init
  let bIsAlphaTested := ctx.flags.MATERIAL_VAR_ALPHATEST
  let nBlendType := ctx.EvaluateBlendRequirements info.baseTexture true
  { info := info
    bHasBaseTexture := (info.baseTexture != -1) && (params info.baseTexture).isTexture
    bHasNormalTexture := (info.bumpMap != -1) && (params info.bumpMap).isTexture
    bHasMraoTexture := (info.mraoTexture != -1) && (params info.mraoTexture).isTexture
    bHasEmissionTexture :=
      (info.emissionTexture != -1) && (params info.emissionTexture).isTexture
    bHasEnvTexture := (info.envMap != -1) && (params info.envMap).isTexture
    bIsAlphaTested := bIsAlphaTested
    bHasFlashlight := ctx.UsingFlashlight
    bHasColor := (info.baseColor != -1) && (params info.baseColor).isDefined
    bLightMapped := !ctx.flags.MATERIAL_VAR_MODEL
    bUseEnvAmbient :=
      (info.useEnvAmbient != -1) && ((params info.useEnvAmbient).intValue == 1)
    bHasSpecularTexture :=
      (info.specularTexture != -1) && (params info.specularTexture).isTexture
    bLightwarpTexture :=
      (info.lightwarpTexture != -1) && (params info.lightwarpTexture).isTexture
    bHasSSS :=
      (info.thicknessTexture != -1) && (params info.thicknessTexture).isTexture
        && ((params info.useSubsurfaceScattering).intValue == 1)
        && ctx.cvars.mat_pbr_subsurfacescattering
    bHasSSR :=
      (info.useSSR != -1) && ((params info.useSSR).intValue == 1) && ctx.cvars.mat_pbr_ssr
    nBlendType := nBlendType
    bFullyOpaque :=
      (nBlendType != BlendType_t.BT_BLENDADD) && (nBlendType != BlendType_t.BT_BLEND)
        && !bIsAlphaTested }

/-! ## The snapshot branch (lines 275-393) -/

/-- Alpha comparison functions. -/
inductive ShaderAlphaFunc_t
  | SHADER_ALPHAFUNC_GEQUAL
  deriving DecidableEq, Repr

/-- Blend factors. -/
inductive ShaderBlendFactor_t
  | SHADER_BLEND_ZERO
  | SHADER_BLEND_ONE
  deriving DecidableEq, Repr

/-- Vertex-format bits named in the source. -/
inductive VertexFormatFlag
  | VERTEX_POSITION
  | VERTEX_NORMAL
  | VERTEX_FORMAT_COMPRESSED
  deriving DecidableEq, Repr

/-- Pixel-shader constant registers: the named `PSREG_` constants of the register
map header (whose numbers are not in the sources; they are taken to be pairwise
different and different from the literals 50 and 51), and registers given by
number. -/
inductive PSReg
  | PSREG_SELFILLUMTINT
  | PSREG_DIFFUSE_MODULATION
  | PSREG_ENVMAP_TINT__SHADOW_TWEAKS
  | PSREG_AMBIENT_CUBE
  | PSREG_EYEPOS_SPEC_EXPONENT
  | PSREG_FOG_PARAMS
  | PSREG_FLASHLIGHT_ATTENUATION
  | PSREG_FLASHLIGHT_POSITION_RIM_BOOST
  | PSREG_FLASHLIGHT_TO_WORLD_TEXTURE
  | PSREG_LIGHT_INFO_ARRAY
  | PSREG_FLASHLIGHT_COLOR
  | PSREG_SHADER_CONTROLS
  | PSREG_MRAO_FACTORS
  | PSREG_EXTRA_FACTORS
  | PSREG_CUSTOM_SSS_PARAMS
  | number (n : Int)
  deriving DecidableEq, Repr

/-- The combos of the static vertex shader `pbr_vs30`. -/
structure StaticVertexShaderKey where
  WORLD_NORMAL : Bool
  LIGHTMAPPED : Bool
  deriving DecidableEq, Repr

/-- The combos of the static pixel shader `pbr_ps30`. -/
structure StaticPixelShaderKey where
  FLASHLIGHT : Bool
  FLASHLIGHTDEPTHFILTERMODE : Int
  LIGHTMAPPED : Bool
  USEENVAMBIENT : Bool
  EMISSIVE : Bool
  SPECULAR : Bool
  PARALLAXOCCLUSION : Int
  WORLD_NORMAL : Bool
  LIGHTWARPTEXTURE : Bool
  SUBSURFACESCATTERING : Bool
  SCREEN_SPACE_REFLECTIONS : Bool
  deriving DecidableEq, Repr

/-- The calls the snapshot branch makes on `pShaderShadow` and on the base class. -/
inductive ShadowCmd
  | EnableAlphaTest (bEnable : Bool)
  | AlphaFunc (alphaFunc : ShaderAlphaFunc_t) (alphaRef : ℚ)
  | EnableBlending (bEnable : Bool)
  | BlendFunc (srcFactor dstFactor : ShaderBlendFactor_t)
  | SetDefaultBlendingShadowState (textureVar : Int) (isBaseTexture : Bool)
  | EnableTexture (sampler : Sampler_t) (bEnable : Bool)
  | EnableSRGBRead (sampler : Sampler_t) (bEnable : Bool)
  | SetShadowDepthFiltering (sampler : Sampler_t)
  | EnableSRGBWrite (bEnable : Bool)
  | VertexShaderVertexFormat (flags : List VertexFormatFlag) (nTexCoordCount : Int)
      (pTexCoordDimensions : Int) (nUserDataSize : Int)
  | SetStaticVertexShader (key : StaticVertexShaderKey)
  | SetStaticPixelShader (key : StaticPixelShaderKey)
  | FogToBlack
  | DefaultFog
  | EnableAlphaWrites (bEnable : Bool)
  | PI_BeginCommandBuffer
  | PI_SetPixelShaderAmbientLightCube (reg : PSReg)
  | PI_SetPixelShaderLocalLighting (reg : PSReg)
  | PI_SetModulationPixelShaderDynamicState_LinearScale_ScaleInW (reg : PSReg) (scale : ℚ)
  | PI_EndCommandBuffer
  deriving DecidableEq

/-- Lines 357-358: the comparison that yields `bWorldNormal`; `IS_FLAG2_SET` is a
C++ `bool`, promoted to 0 or 1 in the sum. -/
def worldNormal (ctx : ShaderContext) : Bool :=
  ctx.ENABLE_FIXED_LIGHTING_OUTPUTNORMAL_AND_DEPTH ==
    ((if ctx.flags.MATERIAL_VAR2_USE_GBUFFER0 then 1 else 0)
      + 2 * (if ctx.flags.MATERIAL_VAR2_USE_GBUFFER1 then 1 else 0) : Int)

/-- Lines 351-355: the value given to the `PARALLAXOCCLUSION` combo. -/
def snapshotUseParallax (params : Params) (ctx : ShaderContext) : Int :=
  let useParallax := (params (drawLocals params ctx).info.useParallax).intValue
  if !ctx.cvars.mat_pbr_parallaxmap then 0 else useParallax

/-- Lines 360-363: the static vertex-shader key. -/
def staticVertexShaderKey (params : Params) (ctx : ShaderContext) : StaticVertexShaderKey :=
  { WORLD_NORMAL := worldNormal ctx
    LIGHTMAPPED := (drawLocals params ctx).bLightMapped }

/-- Lines 294 and 365-377: the static pixel-shader key. -/
def staticPixelShaderKey (params : Params) (ctx : ShaderContext) : StaticPixelShaderKey :=
  let l := drawLocals params ctx
  let nShadowFilterMode : Int := if l.bHasFlashlight then ctx.hw.GetShadowFilterMode else 0
  { FLASHLIGHT := l.bHasFlashlight
    FLASHLIGHTDEPTHFILTERMODE := nShadowFilterMode
    LIGHTMAPPED := l.bLightMapped
    USEENVAMBIENT := l.bUseEnvAmbient
    EMISSIVE := l.bHasEmissionTexture
    SPECULAR := l.bHasSpecularTexture
    PARALLAXOCCLUSION := snapshotUseParallax params ctx
    WORLD_NORMAL := worldNormal ctx
    LIGHTWARPTEXTURE := l.bLightwarpTexture
    SUBSURFACESCATTERING := l.bHasSSS
    SCREEN_SPACE_REFLECTIONS := l.bHasSSR }

/-- Lines 277-292: alpha test, alpha function and blending. -/
def snapshotAlphaBlend (params : Params) (ctx : ShaderContext) : List ShadowCmd :=
  let l := drawLocals params ctx
  [ShadowCmd.EnableAlphaTest l.bIsAlphaTested]
  ++ (if l.info.alphaTestReference != -1 ∧ (params l.info.alphaTestReference).floatValue > 0 then
        [ShadowCmd.AlphaFunc ShaderAlphaFunc_t.SHADER_ALPHAFUNC_GEQUAL
          (params l.info.alphaTestReference).floatValue]
      else [])
  ++ (if l.bHasFlashlight then
        [ShadowCmd.EnableBlending true,
         ShadowCmd.BlendFunc ShaderBlendFactor_t.SHADER_BLEND_ONE
          ShaderBlendFactor_t.SHADER_BLEND_ONE]
      else
        [ShadowCmd.SetDefaultBlendingShadowState l.info.baseTexture true])

/-- Lines 296-338: sampler enabling and SRGB flags. -/
def snapshotSamplers (params : Params) (ctx : ShaderContext) : List ShadowCmd :=
  let l := drawLocals params ctx
  [ShadowCmd.EnableTexture SAMPLER_BASETEXTURE true,
   ShadowCmd.EnableSRGBRead SAMPLER_BASETEXTURE true,
   ShadowCmd.EnableTexture SAMPLER_EMISSIVE true,
   ShadowCmd.EnableSRGBRead SAMPLER_EMISSIVE true,
   ShadowCmd.EnableTexture SAMPLER_LIGHTMAP true,
   ShadowCmd.EnableSRGBRead SAMPLER_LIGHTMAP false,
   ShadowCmd.EnableTexture SAMPLER_MRAO true,
   ShadowCmd.EnableSRGBRead SAMPLER_MRAO false,
   ShadowCmd.EnableTexture SAMPLER_NORMAL true,
   ShadowCmd.EnableSRGBRead SAMPLER_NORMAL false,
   ShadowCmd.EnableTexture SAMPLER_SPECULAR true,
   ShadowCmd.EnableSRGBRead SAMPLER_SPECULAR true,
   ShadowCmd.EnableTexture SAMPLER_SSAO true,
   ShadowCmd.EnableSRGBRead SAMPLER_SSAO true,
   ShadowCmd.EnableTexture SAMPLER_THICKNESS true,
   ShadowCmd.EnableSRGBRead SAMPLER_THICKNESS false]
  ++ (if l.bHasFlashlight then
        [ShadowCmd.EnableTexture SAMPLER_SHADOWDEPTH true,
         ShadowCmd.SetShadowDepthFiltering SAMPLER_SHADOWDEPTH,
         ShadowCmd.EnableSRGBRead SAMPLER_SHADOWDEPTH false,
         ShadowCmd.EnableTexture SAMPLER_RANDOMROTATION true,
         ShadowCmd.EnableTexture SAMPLER_FLASHLIGHT true,
         ShadowCmd.EnableSRGBRead SAMPLER_FLASHLIGHT true]
      else [])
  ++ (if l.bHasEnvTexture then
        [ShadowCmd.EnableTexture SAMPLER_ENVMAP true]
        ++ (if ctx.hw.GetHDRType = HDRType_t.HDR_TYPE_NONE then
              [ShadowCmd.EnableSRGBRead SAMPLER_ENVMAP true]
            else [])
      else [])
  ++ (if l.bLightwarpTexture then
        [ShadowCmd.EnableTexture SAMPLER_LIGHTWARP true,
         ShadowCmd.EnableSRGBRead SAMPLER_LIGHTWARP false]
      else [])
  ++ [ShadowCmd.EnableSRGBWrite true]

/-- Lines 340-392: vertex format, static shaders, fog, alpha writes and the
per-instance command buffer. -/
def snapshotShaders (params : Params) (ctx : ShaderContext) : List ShadowCmd :=
  let l := drawLocals params ctx
  (if ctx.flags.MATERIAL_VAR_MODEL then
      [ShadowCmd.VertexShaderVertexFormat
        [VertexFormatFlag.VERTEX_POSITION, VertexFormatFlag.VERTEX_NORMAL,
         VertexFormatFlag.VERTEX_FORMAT_COMPRESSED] 1 0 0]
    else
      [ShadowCmd.VertexShaderVertexFormat
        [VertexFormatFlag.VERTEX_POSITION, VertexFormatFlag.VERTEX_NORMAL] 3 0 0])
  ++ [ShadowCmd.SetStaticVertexShader (staticVertexShaderKey params ctx),
      ShadowCmd.SetStaticPixelShader (staticPixelShaderKey params ctx)]
  ++ (if l.bHasFlashlight then [ShadowCmd.FogToBlack] else [ShadowCmd.DefaultFog])
  ++ [ShadowCmd.EnableAlphaWrites l.bFullyOpaque,
      ShadowCmd.PI_BeginCommandBuffer,
      ShadowCmd.PI_SetPixelShaderAmbientLightCube PSReg.PSREG_AMBIENT_CUBE,
      ShadowCmd.PI_SetPixelShaderLocalLighting PSReg.PSREG_LIGHT_INFO_ARRAY,
      ShadowCmd.PI_SetModulationPixelShaderDynamicState_LinearScale_ScaleInW
        PSReg.PSREG_DIFFUSE_MODULATION ctx.GetLightMapScaleFactor,
      ShadowCmd.PI_EndCommandBuffer]

/-- The snapshot branch of `SHADER_DRAW` (the body of `if (IsSnapshotting())`). -/
def snapshotBranch (params : Params) (ctx : ShaderContext) : List ShadowCmd :=
  snapshotAlphaBlend params ctx ++ snapshotSamplers params ctx ++ snapshotShaders params ctx

/-! ## The dynamic branch (lines 394-681) -/

/-- The fields of `FlashlightState_t` that the shader reads, together with the
results of the engine helpers `ShadowFilterFromState`, `ShadowAttenFromState`
and `HashShadow2DJitter` applied to it. -/
structure FlashlightState_t where
  m_bEnableShadows : Bool
  m_bUberlight : Bool
  m_flAmbientOcclusion : ℚ
  m_pSpotlightTexture : Option ITexture
  m_nSpotlightTextureFrame : Int
  m_fConstantAtten : ℚ
  m_fLinearAtten : ℚ
  m_fQuadraticAtten : ℚ
  m_FarZAtten : ℚ
  m_vecLightOrigin : List ℚ
  ShadowFilterFromState : ℚ
  ShadowAttenFromState : ℚ
  HashShadow2DJitter : ℚ × ℚ
  deriving DecidableEq

/-- The per-draw renderer state read through `pShaderAPI` and `g_pConfig`. -/
structure DrawState where
  -- GetDX9LightState: m_nNumLights
  m_nNumLights : Int
  -- GetFlashlightStateEx: returned state, world-to-texture matrix, depth texture
  flashlightState : FlashlightState_t
  flashlightWorldToTexture : List ℚ
  pFlashlightDepthTexture : Option ITexture
  -- a default-constructed FlashlightState_t (the local before it is assigned)
  defaultFlashlightState : FlashlightState_t
  -- g_pConfig->ShadowDepthTexture()
  ShadowDepthTexture : Bool
  GetSceneFogMode : MaterialFogMode_t
  GetCurrentNumBones : Int
  ShouldWriteDepthToDestAlpha : Bool
  -- GetWorldSpaceCameraPosition, four floats
  cameraPosition : List ℚ
  GetPixelFogCombo : Int
  -- GetTextureRenderingParameter(TEXTURE_RENDERPARM_AMBIENT_OCCLUSION)
  pAOTexture : Option ITexture
  -- GetIntRenderingParameter(INT_RENDERPARM_ENABLE_FIXED_LIGHTING)
  nLightingPreviewMode : Int
  -- GetWorldSpaceCameraDirection, four floats
  cameraDirection : List ℚ
  GetFarZ : ℚ
  vertexCompression : Int
  -- content of a float that the code passes on without having written it
  indeterminate : ℚ

/-- Vertex-shader constant registers named in the source. -/
inductive VSReg
  | VERTEX_SHADER_SHADER_SPECIFIC_CONST_0
  | VERTEX_SHADER_SHADER_SPECIFIC_CONST_8
  deriving DecidableEq, Repr

/-- The combos of the dynamic vertex shader `pbr_vs30`. -/
structure DynamicVertexShaderKey where
  DOWATERFOG : Int
  SKINNING : Bool
  COMPRESSED_VERTS : Int
  NUM_LIGHTS : Int
  deriving DecidableEq, Repr

/-- The combos of the dynamic pixel shader `pbr_ps30`. -/
structure DynamicPixelShaderKey where
  NUM_LIGHTS : Int
  WRITEWATERFOGTODESTALPHA : Bool
  WRITE_DEPTH_TO_DESTALPHA : Bool
  PIXELFOGTYPE : Int
  FLASHLIGHTSHADOWS : Bool
  UBERLIGHT : Bool
  deriving DecidableEq, Repr

/-- The calls the dynamic branch makes on `pShaderAPI` and on the base class, and
the assertions it evaluates (an assertion is recorded with the value of its
condition; it changes nothing else). -/
inductive DynCmd
  | BindTexture (sampler : Sampler_t) (nTextureVar : Int) (nFrameVar : Int)
  | BindTextureObject (sampler : Sampler_t) (pTexture : Option ITexture) (nFrame : Int)
  | BindStandardTexture (sampler : Sampler_t) (id : StandardTextureId)
  | SetPixelShaderConstant (reg : PSReg) (pVec : List ℚ) (nVecs : Int)
  | SetVertexShaderConstant (reg : VSReg) (pVec : List ℚ)
  | SetVertexShaderTextureTransform (reg : VSReg) (transformVar : Int)
  | SetFlashLightColorFromState (state : FlashlightState_t) (bSinglePassFlashlight : Bool)
      (reg : PSReg)
  | SetupUberlightFromState (state : FlashlightState_t)
  | SetDynamicVertexShader (key : DynamicVertexShaderKey)
  | SetDynamicPixelShader (key : DynamicPixelShaderKey)
  | SetPixelShaderFogParams (reg : PSReg)
  | SetScreenSizeForVPOS
  | Assert (condition : Bool)
  | AssertMsg (condition : Bool) (msg : String)
  deriving DecidableEq

/-- Lines 529-532: `while (width >>= 1) ++mips;` on C `int`s.  `fuel` bounds the
number of loop tests; `none` means the bound was reached. -/
def mipLoop : Nat → Int → Int → Option Int
  | 0, _, _ => none
  | fuel + 1, width, mips =>
    let width1 := width >>> 1
    if width1 ≠ 0 then mipLoop fuel width1 (mips + 1) else some mips

/-- Lines 525-539: `iEnvMapLOD` from the environment texture (`none` is a null
`GetTextureValue()`), then the two clamping statements. -/
def envMapLOD (fuel : Nat) (envTexture : Option ITexture) : Option Int :=
  let computed : Option Int :=
    match envTexture with
    | none => some 6
    | some t => mipLoop fuel t.mappingWidth 0
  computed.map fun iEnvMapLOD =>
    let clampedHigh := if iEnvMapLOD > 12 then 12 else iEnvMapLOD
    if clampedHigh < 4 then 4 else clampedHigh

/-- Three floats read by `GetVecValue(dst, 3)`. -/
def vec3 (v : List ℚ) : List ℚ := [v.getD 0 0, v.getD 1 0, v.getD 2 0]

/-- Lines 398-475: the material texture binds and the tint constant. -/
def drawMaterialTextures (params : Params) (ctx : ShaderContext) (st : DrawState) :
    List DynCmd :=
  let l := drawLocals params ctx
  [if l.bHasBaseTexture then
      DynCmd.BindTexture SAMPLER_BASETEXTURE l.info.baseTexture l.info.baseTextureFrame
    else DynCmd.BindStandardTexture SAMPLER_BASETEXTURE StandardTextureId.TEXTURE_GREY,
   DynCmd.SetPixelShaderConstant PSReg.PSREG_SELFILLUMTINT
    ((if l.bHasColor then vec3 (params l.info.baseColor).vecValue else [1, 1, 1])
      ++ [st.indeterminate]) 1,
   if l.bHasEnvTexture then DynCmd.BindTexture SAMPLER_ENVMAP l.info.envMap 0
    else DynCmd.BindStandardTexture SAMPLER_ENVMAP StandardTextureId.TEXTURE_BLACK,
   if l.bHasEmissionTexture then DynCmd.BindTexture SAMPLER_EMISSIVE l.info.emissionTexture 0
    else DynCmd.BindStandardTexture SAMPLER_EMISSIVE StandardTextureId.TEXTURE_BLACK,
   if l.bHasNormalTexture then DynCmd.BindTexture SAMPLER_NORMAL l.info.bumpMap 0
    else DynCmd.BindStandardTexture SAMPLER_NORMAL StandardTextureId.TEXTURE_NORMALMAP_FLAT,
   if l.bHasMraoTexture then DynCmd.BindTexture SAMPLER_MRAO l.info.mraoTexture 0
    else DynCmd.BindStandardTexture SAMPLER_MRAO StandardTextureId.TEXTURE_WHITE,
   if l.bHasSpecularTexture then DynCmd.BindTexture SAMPLER_SPECULAR l.info.specularTexture 0
    else DynCmd.BindStandardTexture SAMPLER_SPECULAR StandardTextureId.TEXTURE_BLACK]
  ++ (if l.bLightwarpTexture then
        [DynCmd.BindTexture SAMPLER_LIGHTWARP l.info.lightwarpTexture 0]
      else [])
  ++ [if l.bHasSSS then DynCmd.BindTexture SAMPLER_THICKNESS l.info.thicknessTexture 0
      else DynCmd.BindStandardTexture SAMPLER_THICKNESS StandardTextureId.TEXTURE_WHITE]

/-- Lines 477-484: the light count after the lightmapped override. -/
def drawNumLights (ctx : ShaderContext) (st : DrawState) : Int :=
  if !ctx.flags.MATERIAL_VAR_MODEL then 0 else st.m_nNumLights

/-- Lines 486-495: the local `flashlightState` after the flashlight block. -/
def drawFlashlightState (params : Params) (ctx : ShaderContext) (st : DrawState) :
    FlashlightState_t :=
  if (drawLocals params ctx).bHasFlashlight then st.flashlightState
  else st.defaultFlashlightState

/-- Lines 488-496: the local `bFlashlightShadows`. -/
def drawFlashlightShadows (params : Params) (ctx : ShaderContext) (st : DrawState) : Bool :=
  if (drawLocals params ctx).bHasFlashlight then
    st.flashlightState.m_bEnableShadows && st.pFlashlightDepthTexture.isSome
  else false

/-- Lines 489-505: the calls of the first flashlight block. -/
def drawFlashlightTextures (params : Params) (ctx : ShaderContext) (st : DrawState) :
    List DynCmd :=
  let l := drawLocals params ctx
  if l.bHasFlashlight then
    [DynCmd.Assert (decide (l.info.flashlightTexture ≥ 0 ∧ l.info.flashlightTextureFrame ≥ 0)),
     DynCmd.Assert (params l.info.flashlightTexture).isTexture,
     DynCmd.BindTexture SAMPLER_FLASHLIGHT l.info.flashlightTexture
      l.info.flashlightTextureFrame,
     DynCmd.SetFlashLightColorFromState st.flashlightState false PSReg.PSREG_FLASHLIGHT_COLOR]
    ++ (if st.pFlashlightDepthTexture.isSome && st.ShadowDepthTexture
            && st.flashlightState.m_bEnableShadows then
          [DynCmd.BindTextureObject SAMPLER_SHADOWDEPTH st.pFlashlightDepthTexture 0,
           DynCmd.BindStandardTexture SAMPLER_RANDOMROTATION
            StandardTextureId.TEXTURE_SHADOW_NOISE_2D]
        else [])
  else []

/-- Lines 512-517: the local `bWriteDepthToAlpha`. -/
def drawWriteDepthToAlpha (params : Params) (ctx : ShaderContext) (st : DrawState) : Bool :=
  if (drawLocals params ctx).bFullyOpaque then st.ShouldWriteDepthToDestAlpha else false

/-- Lines 513-517: the local `bWriteWaterFogToAlpha`. -/
def drawWriteWaterFogToAlpha (params : Params) (ctx : ShaderContext) (st : DrawState) :
    Bool :=
  if (drawLocals params ctx).bFullyOpaque then
    decide (st.GetSceneFogMode = MaterialFogMode_t.MATERIAL_FOG_LINEAR_BELOW_FOG_Z)
  else false

/-- Lines 546-551: the dynamic vertex-shader key. -/
def dynamicVertexShaderKey (ctx : ShaderContext) (st : DrawState) : DynamicVertexShaderKey :=
  { DOWATERFOG :=
      if st.GetSceneFogMode = MaterialFogMode_t.MATERIAL_FOG_LINEAR_BELOW_FOG_Z then 1 else 0
    SKINNING := decide (st.GetCurrentNumBones > 0)
    COMPRESSED_VERTS := st.vertexCompression
    NUM_LIGHTS := drawNumLights ctx st }

/-- Lines 553-560: the dynamic pixel-shader key. -/
def dynamicPixelShaderKey (params : Params) (ctx : ShaderContext) (st : DrawState) :
    DynamicPixelShaderKey :=
  { NUM_LIGHTS := drawNumLights ctx st
    WRITEWATERFOGTODESTALPHA := drawWriteWaterFogToAlpha params ctx st
    WRITE_DEPTH_TO_DESTALPHA := drawWriteDepthToAlpha params ctx st
    PIXELFOGTYPE := st.GetPixelFogCombo
    FLASHLIGHTSHADOWS := drawFlashlightShadows params ctx st
    UBERLIGHT := (drawFlashlightState params ctx st).m_bUberlight }

/-- Lines 507-562: the alpha-channel assertion, the eye-position register (with
`iEnvMapLOD` in component 3), the lightmap bind, the dynamic shaders and the
texture transform. -/
def drawShaders (params : Params) (ctx : ShaderContext) (st : DrawState) (iEnvMapLOD : Int) :
    List DynCmd :=
  let l := drawLocals params ctx
  (if l.bFullyOpaque then
      [DynCmd.AssertMsg
        (!(drawWriteDepthToAlpha params ctx st && drawWriteWaterFogToAlpha params ctx st))
        "Can't write two values to alpha at the same time."]
    else [])
  ++ [DynCmd.SetPixelShaderConstant PSReg.PSREG_EYEPOS_SPEC_EXPONENT
        [st.cameraPosition.getD 0 0, st.cameraPosition.getD 1 0, st.cameraPosition.getD 2 0,
         (iEnvMapLOD : ℚ)] 1,
      DynCmd.BindStandardTexture SAMPLER_LIGHTMAP StandardTextureId.TEXTURE_LIGHTMAP_BUMPED,
      DynCmd.SetDynamicVertexShader (dynamicVertexShaderKey ctx st),
      DynCmd.SetDynamicPixelShader (dynamicPixelShaderKey params ctx st),
      DynCmd.SetVertexShaderTextureTransform VSReg.VERTEX_SHADER_SHADER_SPECIFIC_CONST_0
        l.info.baseTextureTransform]

/-- Lines 396 and 564-581: the debug overrides of the base and environment
samplers, the fog constant and the ambient-occlusion sampler. -/
def drawOverrides (ctx : ShaderContext) (st : DrawState) : List DynCmd :=
  let bLightingOnly :=
    (ctx.cvars.mat_fullbright == 2) && !ctx.flags.MATERIAL_VAR_NO_DEBUG_OVERRIDE
  (if bLightingOnly then
      [DynCmd.BindStandardTexture SAMPLER_BASETEXTURE StandardTextureId.TEXTURE_GREY]
    else [])
  ++ (if !ctx.cvars.mat_specular then
        [DynCmd.BindStandardTexture SAMPLER_ENVMAP StandardTextureId.TEXTURE_BLACK]
      else [])
  ++ [DynCmd.SetPixelShaderFogParams PSReg.PSREG_FOG_PARAMS,
      if st.pAOTexture.isSome then DynCmd.BindTextureObject SAMPLER_SSAO st.pAOTexture 0
      else DynCmd.BindStandardTexture SAMPLER_SSAO StandardTextureId.TEXTURE_WHITE]

/-- Lines 583-632: the factor registers, the subsurface colour and the two
screen-space-reflection registers. -/
def drawConstants (params : Params) (ctx : ShaderContext) (st : DrawState) : List DynCmd :=
  let l := drawLocals params ctx
  let flSSAOStrength : ℚ :=
    if l.bHasFlashlight then 1 * (drawFlashlightState params ctx st).m_flAmbientOcclusion
    else 1
  let sssColor : List ℚ :=
    if l.info.sssColor != -1 ∧ (params l.info.sssColor).isDefined then
      vec3 (params l.info.sssColor).vecValue
    else [1, 1, 1]
  [DynCmd.SetPixelShaderConstant PSReg.PSREG_MRAO_FACTORS
    [ctx.GetFloatParam l.info.metalnessFactor params 1,
     ctx.GetFloatParam l.info.roughnessFactor params 1,
     ctx.GetFloatParam l.info.aoFactor params 1,
     ctx.GetFloatParam l.info.ssaoFactor params 1 * flSSAOStrength] 1,
   DynCmd.SetPixelShaderConstant PSReg.PSREG_EXTRA_FACTORS
    [ctx.GetFloatParam l.info.emissiveFactor params 1,
     ctx.GetFloatParam l.info.specularFactor params 1,
     ctx.GetFloatParam l.info.sssIntensity params 1,
     ctx.GetFloatParam l.info.sssPowerScale params 1] 1,
   DynCmd.SetPixelShaderConstant PSReg.PSREG_CUSTOM_SSS_PARAMS (sssColor ++ [1]) 1]
  ++ (if l.bHasSSR then
        [DynCmd.SetPixelShaderConstant (PSReg.number 50)
          [1 / 2, 1 / 4, 1 / 10, ctx.cvars.mat_pbr_ssr_intensity] 1,
         DynCmd.SetPixelShaderConstant (PSReg.number 51)
          [(ctx.cvars.mat_pbr_ssr_step_count : ℚ), 35 / 100, 1 / 2,
           ctx.cvars.mat_pbr_ssr_roughness_threshold] 1]
      else [])

/-- Lines 634-680: screen size, the eye-direction constant, the second flashlight
block and the shader-controls register. -/
def drawTail (params : Params) (ctx : ShaderContext) (st : DrawState) : List DynCmd :=
  let l := drawLocals params ctx
  let flashlightState := drawFlashlightState params ctx st
  [DynCmd.SetScreenSizeForVPOS]
  ++ (if st.nLightingPreviewMode = ctx.ENABLE_FIXED_LIGHTING_OUTPUTNORMAL_AND_DEPTH then
        [DynCmd.SetVertexShaderConstant VSReg.VERTEX_SHADER_SHADER_SPECIFIC_CONST_8
          [st.cameraDirection.getD 0 0 / st.GetFarZ, st.cameraDirection.getD 1 0 / st.GetFarZ,
           st.cameraDirection.getD 2 0 / st.GetFarZ, st.cameraDirection.getD 3 0]]
      else [])
  ++ (if l.bHasFlashlight then
        [DynCmd.SetFlashLightColorFromState flashlightState false PSReg.PSREG_FLASHLIGHT_COLOR,
         DynCmd.BindTextureObject SAMPLER_FLASHLIGHT flashlightState.m_pSpotlightTexture
          flashlightState.m_nSpotlightTextureFrame,
         DynCmd.SetPixelShaderConstant PSReg.PSREG_FLASHLIGHT_ATTENUATION
          [flashlightState.m_fConstantAtten, flashlightState.m_fLinearAtten,
           flashlightState.m_fQuadraticAtten, flashlightState.m_FarZAtten] 1,
         DynCmd.SetPixelShaderConstant PSReg.PSREG_FLASHLIGHT_POSITION_RIM_BOOST
          [flashlightState.m_vecLightOrigin.getD 0 0, flashlightState.m_vecLightOrigin.getD 1 0,
           flashlightState.m_vecLightOrigin.getD 2 0, st.indeterminate] 1,
         DynCmd.SetPixelShaderConstant PSReg.PSREG_FLASHLIGHT_TO_WORLD_TEXTURE
          st.flashlightWorldToTexture 4,
         DynCmd.SetPixelShaderConstant PSReg.PSREG_ENVMAP_TINT__SHADOW_TWEAKS
          [flashlightState.ShadowFilterFromState, flashlightState.ShadowAttenFromState,
           flashlightState.HashShadow2DJitter.1, flashlightState.HashShadow2DJitter.2] 1,
         DynCmd.SetupUberlightFromState flashlightState]
      else [])
  ++ [DynCmd.SetPixelShaderConstant PSReg.PSREG_SHADER_CONTROLS
        [ctx.GetFloatParam l.info.parallaxDepth params 3,
         ctx.GetFloatParam l.info.parallaxCenter params 3, 0, 0] 1]

/-- The calls of the dynamic branch once `iEnvMapLOD` is known, in program order. -/
def drawCommands (params : Params) (ctx : ShaderContext) (st : DrawState) (iEnvMapLOD : Int) :
    List DynCmd :=
  drawMaterialTextures params ctx st ++ drawFlashlightTextures params ctx st
    ++ drawShaders params ctx st iEnvMapLOD ++ drawOverrides ctx st
    ++ drawConstants params ctx st ++ drawTail params ctx st

/-- The dynamic branch of `SHADER_DRAW` (the body of the `else`): `none` when the
mip-counting loop has not finished within `fuel` tests, otherwise the calls made
up to the final `Draw()`. -/
def drawBranch (fuel : Nat) (params : Params) (ctx : ShaderContext) (st : DrawState) :
    Option (List DynCmd) :=
  (envMapLOD fuel (params (drawLocals params ctx).info.envMap).textureValue).map
    (drawCommands params ctx st)

/-- What one run of `SHADER_DRAW` hands to the closing `Draw()`: the calls of the
branch that was taken. -/
inductive DrawOutput
  | snapshot (calls : List ShadowCmd)
  | dynamic (calls : List DynCmd)

/-- The body of `SHADER_DRAW`: the branch on `IsSnapshotting()` (line 275). -/
def SHADER_DRAW (IsSnapshotting : Bool) (fuel : Nat) (params : Params) (ctx : ShaderContext)
    (st : DrawState) : Option DrawOutput :=
  if IsSnapshotting then some (DrawOutput.snapshot (snapshotBranch params ctx))
  else (drawBranch fuel params ctx st).map DrawOutput.dynamic

/-! ## Device state reached by a log of calls -/

/-- What a sampler is bound to. -/
inductive Binding
  | materialTexture (nTextureVar : Int) (nFrameVar : Int)
  | textureObject (pTexture : Option ITexture) (nFrame : Int)
  | standardTexture (id : StandardTextureId)
  deriving DecidableEq

/-- The sampler and binding of a call, when the call binds a texture. -/
def DynCmd.binds : DynCmd → Option (Sampler_t × Binding)
  | DynCmd.BindTexture s v f => some (s, Binding.materialTexture v f)
  | DynCmd.BindTextureObject s t f => some (s, Binding.textureObject t f)
  | DynCmd.BindStandardTexture s i => some (s, Binding.standardTexture i)
  | _ => none

/-- The binding that a single call gives to `sampler`, if any. -/
def DynCmd.bindingAt (sampler : Sampler_t) (c : DynCmd) : Option Binding :=
  match c.binds with
  | some (s, b) => if s = sampler then some b else none
  | none => none

/-- The texture bound to `sampler` after the calls `cmds` (the last bind wins);
`none` when no call binds it. -/
def boundTexture (sampler : Sampler_t) : List DynCmd → Option Binding
  | [] => none
  | c :: cs => (boundTexture sampler cs).or (c.bindingAt sampler)

/-- The value a single call writes to pixel-shader register `reg`, if any. -/
def DynCmd.writesAt (reg : PSReg) : DynCmd → Option (List ℚ)
  | DynCmd.SetPixelShaderConstant r v _ => if r = reg then some v else none
  | _ => none

/-- The last value written to pixel-shader register `reg` by the calls `cmds`. -/
def registerValue (reg : PSReg) : List DynCmd → Option (List ℚ)
  | [] => none
  | c :: cs => (registerValue reg cs).or (c.writesAt reg)

/-- The dynamic pixel-shader key a single call sets, if any. -/
def DynCmd.pixelShaderKey : DynCmd → Option DynamicPixelShaderKey
  | DynCmd.SetDynamicPixelShader key => some key
  | _ => none

/-- The dynamic pixel-shader keys set by a log of calls, in order. -/
def dynamicPixelShaderKeys (cmds : List DynCmd) : List DynamicPixelShaderKey :=
  cmds.filterMap DynCmd.pixelShaderKey

/-- The value of the condition of an `AssertMsg` call, if the call is one. -/
def DynCmd.assertMsgResult : DynCmd → Option Bool
  | DynCmd.AssertMsg condition _ => some condition
  | _ => none

/-- The values of the `AssertMsg` conditions evaluated by a log of calls, in order. -/
def assertMsgResults (cmds : List DynCmd) : List Bool :=
  cmds.filterMap DynCmd.assertMsgResult

/-- The samplers that a snapshot log enables. -/
def enabledSamplers (cmds : List ShadowCmd) : List Sampler_t :=
  cmds.filterMap fun c =>
    match c with
    | ShadowCmd.EnableTexture s true => some s
    | _ => none

/-- The static pixel-shader keys set by a snapshot log, in order. -/
def staticPixelShaderKeys (cmds : List ShadowCmd) : List StaticPixelShaderKey :=
  cmds.filterMap fun c =>
    match c with
    | ShadowCmd.SetStaticPixelShader key => some key
    | _ => none

/-- The static vertex-shader keys set by a snapshot log, in order. -/
def staticVertexShaderKeys (cmds : List ShadowCmd) : List StaticVertexShaderKey :=
  cmds.filterMap fun c =>
    match c with
    | ShadowCmd.SetStaticVertexShader key => some key
    | _ => none

/-- The blending calls of a snapshot log, in order. -/
def blendingCalls (cmds : List ShadowCmd) : List ShadowCmd :=
  cmds.filter fun c =>
    match c with
    | ShadowCmd.EnableBlending _ => true
    | ShadowCmd.BlendFunc _ _ => true
    | ShadowCmd.SetDefaultBlendingShadowState _ _ => true
    | _ => false

/-- The alpha-test calls of a snapshot log, in order. -/
def alphaTestCalls (cmds : List ShadowCmd) : List ShadowCmd :=
  cmds.filter fun c =>
    match c with
    | ShadowCmd.EnableAlphaTest _ => true
    | ShadowCmd.AlphaFunc _ _ => true
    | _ => false

/-- The environment texture's mapping width is a non-negative 32-bit `int` (or
there is no environment texture): the inputs on which the mip-counting loop
ends. -/
def envWidthInRange (params : Params) : Bool :=
  match (params ENVMAP).textureValue with
  | none => true
  | some t => decide (0 ≤ t.mappingWidth) && decide (t.mappingWidth < 2 ^ 31)

/-- The closed form of `iEnvMapLOD` on inputs where the loop ends: 6 without an
environment texture, otherwise `floor(log2 width)` clamped to the range 4..12. -/
def envMapLODValue (envTexture : Option ITexture) : Int :=
  match envTexture with
  | none => 6
  | some t => ((max 4 (min 12 (Nat.log 2 t.mappingWidth.toNat)) : Nat) : Int)

/-! ## Two readings of the helper `GetFloatParam` -/

/-- The helper `GetFloatParam(index, params, default)` read as an index guard: the
parameter's float value, and the default only for the index `-1`. -/
def GetFloatParamByIndex (nIndex : Int) (params : Params) (flValue : ℚ) : ℚ :=
  if nIndex != -1 then (params nIndex).floatValue else flValue

/-- Modelled from the spec: the helper `GetFloatParam(index, params, default)` comes from
the base shader header, which is not among the sources; the spec speaks of
"defined defaults when undefined", read here as the parameter's float value
when the parameter is defined and the default passed in otherwise. -/
def GetFloatParamWhenDefined (nIndex : Int) (params : Params) (flValue : ℚ) : ℚ :=
  if (params nIndex).isDefined then (params nIndex).floatValue else flValue

/-! ## Sample inputs -/

/-- An undefined material variable. -/
def undefinedVar : MaterialVar :=
  { isDefined := false, isTexture := false, stringValue := "", intValue := 0,
    floatValue := 0, vecValue := [], textureValue := none }

/-- A material variable holding a loaded texture of the given width. -/
def textureVar (name : String) (width : Int) : MaterialVar :=
  { isDefined := true, isTexture := true, stringValue := name, intValue := 0,
    floatValue := 0, vecValue := [], textureValue := some { id := 1, mappingWidth := width } }

/-- A material with no parameter defined. -/
def emptyParams : Params := fun _ => undefinedVar

/-- A material whose base texture and environment map are loaded textures. -/
def texturedParams : Params :=
  (emptyParams.set BASETEXTURE (textureVar "brick/wall" 512)).set ENVMAP
    (textureVar "env_cubemap" 4096)

/-- A flashlight state with shadows switched off. -/
def sampleFlashlight : FlashlightState_t :=
  { m_bEnableShadows := false, m_bUberlight := false, m_flAmbientOcclusion := 1 / 2,
    m_pSpotlightTexture := some { id := 7, mappingWidth := 256 },
    m_nSpotlightTextureFrame := 0, m_fConstantAtten := 0, m_fLinearAtten := 1,
    m_fQuadraticAtten := 0, m_FarZAtten := 100, m_vecLightOrigin := [0, 0, 0],
    ShadowFilterFromState := 1, ShadowAttenFromState := 0, HashShadow2DJitter := (0, 0) }

/-- A brush material, opaque, no flashlight, all console variables at the defaults
of lines 29-36. -/
def sampleContext : ShaderContext :=
  { flags :=
      { MATERIAL_VAR_ALPHATEST := false, MATERIAL_VAR_MODEL := false,
        MATERIAL_VAR_NO_DEBUG_OVERRIDE := false, MATERIAL_VAR2_USE_GBUFFER0 := true,
        MATERIAL_VAR2_USE_GBUFFER1 := true }
    cvars :=
      { mat_fullbright := 0, mat_specular := true, mat_pbr_parallaxmap := true,
        mat_pbr_subsurfacescattering := true, mat_pbr_ssr := true,
        mat_pbr_ssr_intensity := 1, mat_pbr_ssr_step_count := 8,
        mat_pbr_ssr_roughness_threshold := 6 / 10 }
    hw :=
      { SupportsBorderColor := true, GetHDRType := HDRType_t.HDR_TYPE_NONE,
        GetShadowFilterMode := 0 }
    UsingFlashlight := false
    EvaluateBlendRequirements := fun _ _ => BlendType_t.BT_NONE
    ENABLE_FIXED_LIGHTING_OUTPUTNORMAL_AND_DEPTH := 2
    GetLightMapScaleFactor := 1
    GetFloatParam := fun nIndex params flValue =>
      if nIndex != -1 then (params nIndex).floatValue else flValue }

/-- A per-draw renderer state: no fog, no depth-to-alpha, no ambient-occlusion
buffer, no flashlight depth texture. -/
def sampleState : DrawState :=
  { m_nNumLights := 0, flashlightState := sampleFlashlight,
    flashlightWorldToTexture := [], pFlashlightDepthTexture := none,
    defaultFlashlightState := sampleFlashlight, ShadowDepthTexture := true,
    GetSceneFogMode := MaterialFogMode_t.MATERIAL_FOG_NONE, GetCurrentNumBones := 0,
    ShouldWriteDepthToDestAlpha := false, cameraPosition := [0, 0, 0, 0],
    GetPixelFogCombo := 0, pAOTexture := none, nLightingPreviewMode := 0,
    cameraDirection := [0, 0, 1, 0], GetFarZ := 1, vertexCompression := 0,
    indeterminate := 0 }

/-- A renderer state under water in which the device also asks for depth in
destination alpha. -/
def belowFogDepthState : DrawState :=
  { sampleState with
    GetSceneFogMode := MaterialFogMode_t.MATERIAL_FOG_LINEAR_BELOW_FOG_Z
    ShouldWriteDepthToDestAlpha := true }

/-- The sample context with a flashlight active. -/
def flashlightContext : ShaderContext := { sampleContext with UsingFlashlight := true }

/-- The textured sample material with its flashlight cookie loaded. -/
def flashlightParams : Params :=
  texturedParams.set FLASHLIGHTTEXTURE (textureVar "effects/flashlight_border" 512)

/-- The sample context with `mat_fullbright 2` (lighting-only debug view). -/
def lightingOnlyContext : ShaderContext :=
  { sampleContext with cvars := { sampleContext.cvars with mat_fullbright := 2 } }

/-- The sample context with the global subsurface toggle off. -/
def subsurfaceOffContext : ShaderContext :=
  { sampleContext with
    cvars := { sampleContext.cvars with mat_pbr_subsurfacescattering := false } }

/-- A material with a thickness texture and the subsurface flag set. -/
def subsurfaceParams : Params :=
  (texturedParams.set SSSTHICKNESS (textureVar "skin/thickness" 256)).set SUBSURFACESCATTERING
    { undefinedVar with isDefined := true, intValue := 1 }

/-- The sample context for an alpha-tested material. -/
def alphaTestedContext : ShaderContext :=
  { sampleContext with flags := { sampleContext.flags with MATERIAL_VAR_ALPHATEST := true } }

/-- A material that only defines the deprecated normal-map parameter. -/
def legacyNormalParams : Params :=
  emptyParams.set NORMALTEXTURE
    { undefinedVar with isDefined := true, stringValue := "models/rock/rock_normal" }

/-- The sample context with `GetFloatParam` falling back when the parameter is
undefined. -/
def fallbackContext : ShaderContext :=
  { sampleContext with GetFloatParam := GetFloatParamWhenDefined }

/-- A material that defines its own MRAO texture and environment map by name. -/
def namedMapsParams : Params :=
  (emptyParams.set MRAOTEXTURE
      { undefinedVar with isDefined := true, stringValue := "models/rock/rock_mrao" }).set ENVMAP
    { undefinedVar with isDefined := true, stringValue := "env/studio" }

/-- A material with screen-space reflections switched on. -/
def ssrParams : Params :=
  texturedParams.set ENABLESSR { undefinedVar with isDefined := true, intValue := 1 }

/-- The same material with its three SSR tuning parameters set. -/
def ssrTunedParams : Params :=
  ((ssrParams.set SSRINTENSITY { undefinedVar with isDefined := true, floatValue := 2 }).set
      SSRQUALITY { undefinedVar with isDefined := true, floatValue := 16 }).set
    SSRROUGHNESSTHRESHOLD { undefinedVar with isDefined := true, floatValue := 1 / 4 }

/-- A material that defines both the deprecated and the canonical normal-map
parameter. -/
def bothNormalParams : Params :=
  legacyNormalParams.set BUMPMAP
    { undefinedVar with isDefined := true, stringValue := "models/rock/rock_bump" }

/-- The empty material after `SHADER_INIT_PARAMS` on the sample hardware. -/
def initialisedEmptyParams : Params := SHADER_INIT_PARAMS sampleContext.hw emptyParams

/-! ## Auxiliary facts -/

theorem boundTexture_append (sampler : Sampler_t) (a b : List DynCmd) :
    boundTexture sampler (a ++ b) = (boundTexture sampler b).or (boundTexture sampler a) := by
  induction a with
  | nil => simp [boundTexture]
  | cons c cs ih =>
    show (boundTexture sampler (cs ++ b)).or _
      = (boundTexture sampler b).or ((boundTexture sampler cs).or _)
    rw [ih]
    cases boundTexture sampler b <;> simp

theorem registerValue_append (reg : PSReg) (a b : List DynCmd) :
    registerValue reg (a ++ b) = (registerValue reg b).or (registerValue reg a) := by
  induction a with
  | nil => simp [registerValue]
  | cons c cs ih =>
    show (registerValue reg (cs ++ b)).or _
      = (registerValue reg b).or ((registerValue reg cs).or _)
    rw [ih]
    cases registerValue reg b <;> simp

/-- On a positive width the loop of lines 529-532 counts `floor(log2 width)`
halvings, provided the fuel exceeds that count. -/
theorem mipLoop_eq_log (fuel : Nat) :
    ∀ (n : Nat) (mips : Int), 0 < n → Nat.log 2 n < fuel →
      mipLoop fuel (n : Int) mips = some (mips + (Nat.log 2 n : Int)) := by
  induction fuel with
  | zero => intro n mips _ h; omega
  | succ k ih =>
    intro n mips hn hk
    have hshift : ((n : Int) >>> 1) = ((n / 2 : Nat) : Int) := by
      show ((n >>> 1 : Nat) : Int) = _
      rw [Nat.shiftRight_eq_div_pow]
    simp only [mipLoop, hshift]
    by_cases h2 : n / 2 = 0
    · have hlt : n < 2 := by omega
      have hlog : Nat.log 2 n = 0 := Nat.log_eq_zero_iff.mpr (Or.inl hlt)
      simp [h2, hlog]
    · have hle : 2 ≤ n := by omega
      have hlog : Nat.log 2 n = Nat.log 2 (n / 2) + 1 :=
        Nat.log_of_one_lt_of_le (by decide) hle
      have hne : ((n / 2 : Nat) : Int) ≠ 0 := by exact_mod_cast h2
      rw [if_pos hne, ih (n / 2) (mips + 1) (by omega) (by omega), hlog]
      push_cast
      congr 1
      ring

/-- On width zero the loop ends at once with no halving counted. -/
theorem mipLoop_zero (fuel : Nat) (mips : Int) : mipLoop (fuel + 1) 0 mips = some mips := by
  simp [mipLoop]

theorem envMapLOD_eq (fuel : Nat) (hf : 32 ≤ fuel) (envTexture : Option ITexture)
    (hw : ∀ t, envTexture = some t → 0 ≤ t.mappingWidth ∧ t.mappingWidth < 2 ^ 31) :
    envMapLOD fuel envTexture = some (envMapLODValue envTexture) := by
  cases envTexture with
  | none => simp [envMapLOD, envMapLODValue]
  | some t =>
    obtain ⟨h0, h1⟩ := hw t rfl
    obtain ⟨n, hn⟩ := Int.eq_ofNat_of_zero_le h0
    have hn31 : n < 2 ^ 31 := by rw [hn] at h1; exact_mod_cast h1
    obtain ⟨k, rfl⟩ : ∃ k, fuel = k + 1 := ⟨fuel - 1, by omega⟩
    rcases Nat.eq_zero_or_pos n with hz | hpos
    · subst hz
      simp [envMapLOD, envMapLODValue, hn, mipLoop_zero]
    · have hlog : Nat.log 2 n < 31 := Nat.log_lt_of_lt_pow (by omega) hn31
      simp only [envMapLOD, envMapLODValue, hn, Int.toNat_ofNat]
      rw [mipLoop_eq_log (k + 1) n 0 hpos (by omega)]
      simp only [Option.map_some', zero_add, Option.some.injEq]
      split_ifs <;> omega

theorem drawBranch_returns (fuel : Nat) (hf : 32 ≤ fuel) (params : Params)
    (ctx : ShaderContext) (st : DrawState) (hw : envWidthInRange params = true) :
    drawBranch fuel params ctx st
      = some (drawCommands params ctx st (envMapLODValue (params ENVMAP).textureValue)) := by
  have h := envMapLOD_eq fuel hf (params ENVMAP).textureValue (by
    intro t ht
    simp only [envWidthInRange, ht, Bool.and_eq_true, decide_eq_true_eq] at hw
    exact hw)
  simp only [drawBranch, drawLocals, SetupVars]
  rw [h]
  rfl

/-! ### Final sampler bindings of the dynamic branch -/

theorem bindingAt_BindTexture (s s1 : Sampler_t) (v f : Int) :
    (DynCmd.BindTexture s1 v f).bindingAt s
      = if s1 = s then some (Binding.materialTexture v f) else none := rfl
theorem bindingAt_BindTextureObject (s s1 : Sampler_t) (t : Option ITexture) (f : Int) :
    (DynCmd.BindTextureObject s1 t f).bindingAt s
      = if s1 = s then some (Binding.textureObject t f) else none := rfl
theorem bindingAt_BindStandardTexture (s s1 : Sampler_t) (i : StandardTextureId) :
    (DynCmd.BindStandardTexture s1 i).bindingAt s
      = if s1 = s then some (Binding.standardTexture i) else none := rfl

theorem bindingAt_of_binds_none (s : Sampler_t) (c : DynCmd) (h : c.binds = none) :
    c.bindingAt s = none := by
  simp [DynCmd.bindingAt, h]

theorem bindingAt_ite (s : Sampler_t) (c : Prop) [Decidable c] (a b : DynCmd) :
    (if c then a else b).bindingAt s = if c then a.bindingAt s else b.bindingAt s := by
  split <;> rfl

theorem boundTexture_ite (s : Sampler_t) (c : Prop) [Decidable c] (a b : List DynCmd) :
    boundTexture s (if c then a else b) = if c then boundTexture s a else boundTexture s b := by
  split <;> rfl

theorem registerValue_ite (r : PSReg) (c : Prop) [Decidable c] (a b : List DynCmd) :
    registerValue r (if c then a else b) = if c then registerValue r a else registerValue r b := by
  split <;> rfl

theorem writesAt_ite (r : PSReg) (c : Prop) [Decidable c] (a b : DynCmd) :
    (if c then a else b).writesAt r = if c then a.writesAt r else b.writesAt r := by
  split <;> rfl

theorem boundTexture_drawCommands_base (params : Params) (ctx : ShaderContext) (st : DrawState) (lod : Int) :
    boundTexture SAMPLER_BASETEXTURE (drawCommands params ctx st lod)
      = if ctx.cvars.mat_fullbright = 2 ∧ ctx.flags.MATERIAL_VAR_NO_DEBUG_OVERRIDE = false
          then some (Binding.standardTexture StandardTextureId.TEXTURE_GREY)
        else if (params BASETEXTURE).isTexture = true
          then some (Binding.materialTexture BASETEXTURE FRAME)
        else some (Binding.standardTexture StandardTextureId.TEXTURE_GREY) := by
  simp only [drawCommands, drawMaterialTextures, drawFlashlightTextures,
    drawShaders, drawOverrides, drawConstants, drawTail, boundTexture_append, boundTexture_ite]
  simp only [boundTexture, bindingAt_ite, bindingAt_BindTexture, bindingAt_BindStandardTexture,
    bindingAt_BindTextureObject, bindingAt_of_binds_none, DynCmd.binds]
  simp [drawLocals, SetupVars]
  split_ifs <;> simp

theorem boundTexture_drawCommands_envmap (params : Params) (ctx : ShaderContext) (st : DrawState) (lod : Int) :
    boundTexture SAMPLER_ENVMAP (drawCommands params ctx st lod)
      = if ctx.cvars.mat_specular = false
          then some (Binding.standardTexture StandardTextureId.TEXTURE_BLACK)
        else if (params ENVMAP).isTexture = true
          then some (Binding.materialTexture ENVMAP 0)
        else some (Binding.standardTexture StandardTextureId.TEXTURE_BLACK) := by
  simp only [drawCommands, drawMaterialTextures, drawFlashlightTextures,
    drawShaders, drawOverrides, drawConstants, drawTail, boundTexture_append, boundTexture_ite]
  simp only [boundTexture, bindingAt_ite, bindingAt_BindTexture, bindingAt_BindStandardTexture,
    bindingAt_BindTextureObject, bindingAt_of_binds_none, DynCmd.binds]
  simp [drawLocals, SetupVars]
  split_ifs <;> simp

theorem boundTexture_drawCommands_emissive (params : Params) (ctx : ShaderContext) (st : DrawState) (lod : Int) :
    boundTexture SAMPLER_EMISSIVE (drawCommands params ctx st lod)
      = if (params EMISSIONTEXTURE).isTexture = true
          then some (Binding.materialTexture EMISSIONTEXTURE 0)
        else some (Binding.standardTexture StandardTextureId.TEXTURE_BLACK) := by
  simp only [drawCommands, drawMaterialTextures, drawFlashlightTextures,
    drawShaders, drawOverrides, drawConstants, drawTail, boundTexture_append, boundTexture_ite]
  simp only [boundTexture, bindingAt_ite, bindingAt_BindTexture, bindingAt_BindStandardTexture,
    bindingAt_BindTextureObject, bindingAt_of_binds_none, DynCmd.binds]
  simp [drawLocals, SetupVars]

theorem boundTexture_drawCommands_normal (params : Params) (ctx : ShaderContext) (st : DrawState) (lod : Int) :
    boundTexture SAMPLER_NORMAL (drawCommands params ctx st lod)
      = if (params BUMPMAP).isTexture = true
          then some (Binding.materialTexture BUMPMAP 0)
        else some (Binding.standardTexture StandardTextureId.TEXTURE_NORMALMAP_FLAT) := by
  simp only [drawCommands, drawMaterialTextures, drawFlashlightTextures,
    drawShaders, drawOverrides, drawConstants, drawTail, boundTexture_append, boundTexture_ite]
  simp only [boundTexture, bindingAt_ite, bindingAt_BindTexture, bindingAt_BindStandardTexture,
    bindingAt_BindTextureObject, bindingAt_of_binds_none, DynCmd.binds]
  simp [drawLocals, SetupVars]

theorem boundTexture_drawCommands_mrao (params : Params) (ctx : ShaderContext) (st : DrawState) (lod : Int) :
    boundTexture SAMPLER_MRAO (drawCommands params ctx st lod)
      = if (params MRAOTEXTURE).isTexture = true
          then some (Binding.materialTexture MRAOTEXTURE 0)
        else some (Binding.standardTexture StandardTextureId.TEXTURE_WHITE) := by
  simp only [drawCommands, drawMaterialTextures, drawFlashlightTextures,
    drawShaders, drawOverrides, drawConstants, drawTail, boundTexture_append, boundTexture_ite]
  simp only [boundTexture, bindingAt_ite, bindingAt_BindTexture, bindingAt_BindStandardTexture,
    bindingAt_BindTextureObject, bindingAt_of_binds_none, DynCmd.binds]
  simp [drawLocals, SetupVars]

theorem boundTexture_drawCommands_specular (params : Params) (ctx : ShaderContext) (st : DrawState) (lod : Int) :
    boundTexture SAMPLER_SPECULAR (drawCommands params ctx st lod)
      = if (params SPECULARTEXTURE).isTexture = true
          then some (Binding.materialTexture SPECULARTEXTURE 0)
        else some (Binding.standardTexture StandardTextureId.TEXTURE_BLACK) := by
  simp only [drawCommands, drawMaterialTextures, drawFlashlightTextures,
    drawShaders, drawOverrides, drawConstants, drawTail, boundTexture_append, boundTexture_ite]
  simp only [boundTexture, bindingAt_ite, bindingAt_BindTexture, bindingAt_BindStandardTexture,
    bindingAt_BindTextureObject, bindingAt_of_binds_none, DynCmd.binds]
  simp [drawLocals, SetupVars]

theorem boundTexture_drawCommands_ssao (params : Params) (ctx : ShaderContext) (st : DrawState) (lod : Int) :
    boundTexture SAMPLER_SSAO (drawCommands params ctx st lod)
      = if st.pAOTexture.isSome = true
          then some (Binding.textureObject st.pAOTexture 0)
        else some (Binding.standardTexture StandardTextureId.TEXTURE_WHITE) := by
  simp only [drawCommands, drawMaterialTextures, drawFlashlightTextures,
    drawShaders, drawOverrides, drawConstants, drawTail, boundTexture_append, boundTexture_ite]
  simp only [boundTexture, bindingAt_ite, bindingAt_BindTexture, bindingAt_BindStandardTexture,
    bindingAt_BindTextureObject, bindingAt_of_binds_none, DynCmd.binds]
  simp [drawLocals, SetupVars]

theorem boundTexture_drawCommands_thickness (params : Params) (ctx : ShaderContext) (st : DrawState) (lod : Int) :
    boundTexture SAMPLER_THICKNESS (drawCommands params ctx st lod)
      = if (drawLocals params ctx).bHasSSS = true
          then some (Binding.materialTexture SSSTHICKNESS 0)
        else some (Binding.standardTexture StandardTextureId.TEXTURE_WHITE) := by
  simp only [drawCommands, drawMaterialTextures, drawFlashlightTextures,
    drawShaders, drawOverrides, drawConstants, drawTail, boundTexture_append, boundTexture_ite]
  simp only [boundTexture, bindingAt_ite, bindingAt_BindTexture, bindingAt_BindStandardTexture,
    bindingAt_BindTextureObject, bindingAt_of_binds_none, DynCmd.binds]
  simp [drawLocals, SetupVars]

theorem boundTexture_drawCommands_lightmap (params : Params) (ctx : ShaderContext) (st : DrawState) (lod : Int) :
    boundTexture SAMPLER_LIGHTMAP (drawCommands params ctx st lod)
      = some (Binding.standardTexture StandardTextureId.TEXTURE_LIGHTMAP_BUMPED) := by
  simp only [drawCommands, drawMaterialTextures, drawFlashlightTextures,
    drawShaders, drawOverrides, drawConstants, drawTail, boundTexture_append, boundTexture_ite]
  simp only [boundTexture, bindingAt_ite, bindingAt_BindTexture, bindingAt_BindStandardTexture,
    bindingAt_BindTextureObject, bindingAt_of_binds_none, DynCmd.binds]
  simp [drawLocals, SetupVars]

theorem boundTexture_drawCommands_lightwarp (params : Params) (ctx : ShaderContext) (st : DrawState) (lod : Int) :
    boundTexture SAMPLER_LIGHTWARP (drawCommands params ctx st lod)
      = if (params LIGHTWARPTEXTURE).isTexture = true
          then some (Binding.materialTexture LIGHTWARPTEXTURE 0)
        else none := by
  simp only [drawCommands, drawMaterialTextures, drawFlashlightTextures,
    drawShaders, drawOverrides, drawConstants, drawTail, boundTexture_append, boundTexture_ite]
  simp only [boundTexture, bindingAt_ite, bindingAt_BindTexture, bindingAt_BindStandardTexture,
    bindingAt_BindTextureObject, bindingAt_of_binds_none, DynCmd.binds]
  simp [drawLocals, SetupVars]

theorem boundTexture_drawCommands_flashlight (params : Params) (ctx : ShaderContext) (st : DrawState) (lod : Int) :
    boundTexture SAMPLER_FLASHLIGHT (drawCommands params ctx st lod)
      = if ctx.UsingFlashlight = true
          then some (Binding.textureObject st.flashlightState.m_pSpotlightTexture
            st.flashlightState.m_nSpotlightTextureFrame)
        else none := by
  simp only [drawCommands, drawMaterialTextures, drawFlashlightTextures,
    drawShaders, drawOverrides, drawConstants, drawTail, boundTexture_append, boundTexture_ite]
  simp only [boundTexture, bindingAt_ite, bindingAt_BindTexture, bindingAt_BindStandardTexture,
    bindingAt_BindTextureObject, bindingAt_of_binds_none, DynCmd.binds]
  simp [drawLocals, SetupVars, drawFlashlightState]
  split_ifs <;> simp_all

theorem boundTexture_drawCommands_shadowdepth (params : Params) (ctx : ShaderContext) (st : DrawState) (lod : Int) :
    boundTexture SAMPLER_SHADOWDEPTH (drawCommands params ctx st lod)
      = if ctx.UsingFlashlight = true ∧ st.pFlashlightDepthTexture.isSome = true
            ∧ st.ShadowDepthTexture = true ∧ st.flashlightState.m_bEnableShadows = true
          then some (Binding.textureObject st.pFlashlightDepthTexture 0)
        else none := by
  simp only [drawCommands, drawMaterialTextures, drawFlashlightTextures,
    drawShaders, drawOverrides, drawConstants, drawTail, boundTexture_append, boundTexture_ite]
  simp only [boundTexture, bindingAt_ite, bindingAt_BindTexture, bindingAt_BindStandardTexture,
    bindingAt_BindTextureObject, bindingAt_of_binds_none, DynCmd.binds]
  simp [drawLocals, SetupVars, drawFlashlightState]
  split_ifs <;> simp_all

theorem boundTexture_drawCommands_randomrotation (params : Params) (ctx : ShaderContext) (st : DrawState) (lod : Int) :
    boundTexture SAMPLER_RANDOMROTATION (drawCommands params ctx st lod)
      = if ctx.UsingFlashlight = true ∧ st.pFlashlightDepthTexture.isSome = true
            ∧ st.ShadowDepthTexture = true ∧ st.flashlightState.m_bEnableShadows = true
          then some (Binding.standardTexture StandardTextureId.TEXTURE_SHADOW_NOISE_2D)
        else none := by
  simp only [drawCommands, drawMaterialTextures, drawFlashlightTextures,
    drawShaders, drawOverrides, drawConstants, drawTail, boundTexture_append, boundTexture_ite]
  simp only [boundTexture, bindingAt_ite, bindingAt_BindTexture, bindingAt_BindStandardTexture,
    bindingAt_BindTextureObject, bindingAt_of_binds_none, DynCmd.binds]
  simp [drawLocals, SetupVars, drawFlashlightState]
  split_ifs <;> simp_all

/-! ### Keys, registers and snapshot calls -/

theorem pixelShaderKey_ite (c : Prop) [Decidable c] (a b : DynCmd) :
    (if c then a else b).pixelShaderKey = if c then a.pixelShaderKey else b.pixelShaderKey := by
  split <;> rfl

theorem dynamicPixelShaderKeys_drawCommands (params : Params) (ctx : ShaderContext)
    (st : DrawState) (lod : Int) :
    dynamicPixelShaderKeys (drawCommands params ctx st lod)
      = [dynamicPixelShaderKey params ctx st] := by
  simp only [dynamicPixelShaderKeys, drawCommands, drawMaterialTextures, drawFlashlightTextures,
    drawShaders, drawOverrides, drawConstants, drawTail, List.filterMap_append,
    apply_ite (List.filterMap _)]
  simp only [List.filterMap_cons, List.filterMap_nil, pixelShaderKey_ite]
  simp [DynCmd.pixelShaderKey]

theorem registerValue_drawCommands_eyepos (params : Params) (ctx : ShaderContext)
    (st : DrawState) (lod : Int) :
    registerValue PSReg.PSREG_EYEPOS_SPEC_EXPONENT (drawCommands params ctx st lod)
      = some [st.cameraPosition.getD 0 0, st.cameraPosition.getD 1 0,
          st.cameraPosition.getD 2 0, (lod : ℚ)] := by
  simp only [drawCommands, drawMaterialTextures, drawFlashlightTextures,
    drawShaders, drawOverrides, drawConstants, drawTail, registerValue_append, registerValue_ite]
  simp only [registerValue, writesAt_ite]
  simp [DynCmd.writesAt]

theorem enabledSamplers_snapshotBranch (params : Params) (ctx : ShaderContext) :
    enabledSamplers (snapshotBranch params ctx)
      = [SAMPLER_BASETEXTURE, SAMPLER_EMISSIVE, SAMPLER_LIGHTMAP, SAMPLER_MRAO, SAMPLER_NORMAL,
          SAMPLER_SPECULAR, SAMPLER_SSAO, SAMPLER_THICKNESS]
        ++ (if ctx.UsingFlashlight = true then
              [SAMPLER_SHADOWDEPTH, SAMPLER_RANDOMROTATION, SAMPLER_FLASHLIGHT] else [])
        ++ (if (params ENVMAP).isTexture = true then [SAMPLER_ENVMAP] else [])
        ++ (if (params LIGHTWARPTEXTURE).isTexture = true then [SAMPLER_LIGHTWARP] else []) := by
  simp only [enabledSamplers, snapshotBranch, snapshotAlphaBlend, snapshotSamplers,
    snapshotShaders, List.filterMap_append, apply_ite (List.filterMap _), List.filterMap_cons,
    List.filterMap_nil]
  simp [drawLocals, SetupVars]

theorem staticPixelShaderKeys_snapshotBranch (params : Params) (ctx : ShaderContext) :
    staticPixelShaderKeys (snapshotBranch params ctx) = [staticPixelShaderKey params ctx] := by
  simp only [staticPixelShaderKeys, snapshotBranch, snapshotAlphaBlend, snapshotSamplers,
    snapshotShaders, List.filterMap_append, apply_ite (List.filterMap _), List.filterMap_cons,
    List.filterMap_nil]
  simp

theorem assertMsgResult_ite (c : Prop) [Decidable c] (a b : DynCmd) :
    (if c then a else b).assertMsgResult
      = if c then a.assertMsgResult else b.assertMsgResult := by
  split <;> rfl

theorem assertMsgResults_drawCommands (params : Params) (ctx : ShaderContext)
    (st : DrawState) (lod : Int) :
    assertMsgResults (drawCommands params ctx st lod)
      = if (drawLocals params ctx).bFullyOpaque = true then
          [!(drawWriteDepthToAlpha params ctx st && drawWriteWaterFogToAlpha params ctx st)]
        else [] := by
  simp only [assertMsgResults, drawCommands, drawMaterialTextures, drawFlashlightTextures,
    drawShaders, drawOverrides, drawConstants, drawTail, List.filterMap_append,
    apply_ite (List.filterMap _)]
  simp only [List.filterMap_cons, List.filterMap_nil, assertMsgResult_ite]
  simp [DynCmd.assertMsgResult]

theorem staticVertexShaderKeys_snapshotBranch (params : Params) (ctx : ShaderContext) :
    staticVertexShaderKeys (snapshotBranch params ctx) = [staticVertexShaderKey params ctx] := by
  simp only [staticVertexShaderKeys, snapshotBranch, snapshotAlphaBlend, snapshotSamplers,
    snapshotShaders, List.filterMap_append, apply_ite (List.filterMap _), List.filterMap_cons,
    List.filterMap_nil]
  simp

theorem registerValue_drawCommands_shaderControls (params : Params) (ctx : ShaderContext)
    (st : DrawState) (lod : Int) :
    registerValue PSReg.PSREG_SHADER_CONTROLS (drawCommands params ctx st lod)
      = some [ctx.GetFloatParam PARALLAXDEPTH params 3,
          ctx.GetFloatParam PARALLAXCENTER params 3, 0, 0] := by
  simp only [drawCommands, drawMaterialTextures, drawFlashlightTextures,
    drawShaders, drawOverrides, drawConstants, drawTail, registerValue_append, registerValue_ite]
  simp only [registerValue, writesAt_ite]
  simp [DynCmd.writesAt, drawLocals, SetupVars]

theorem registerValue_drawCommands_mraoFactors (params : Params) (ctx : ShaderContext)
    (st : DrawState) (lod : Int) :
    registerValue PSReg.PSREG_MRAO_FACTORS (drawCommands params ctx st lod)
      = some [ctx.GetFloatParam METALNESSFACTOR params 1,
          ctx.GetFloatParam ROUGHNESSFACTOR params 1,
          ctx.GetFloatParam AOFACTOR params 1,
          ctx.GetFloatParam SSAOFACTOR params 1
            * (if ctx.UsingFlashlight = true then 1 * st.flashlightState.m_flAmbientOcclusion
                else 1)] := by
  simp only [drawCommands, drawMaterialTextures, drawFlashlightTextures,
    drawShaders, drawOverrides, drawConstants, drawTail, registerValue_append, registerValue_ite]
  simp only [registerValue, writesAt_ite]
  simp [DynCmd.writesAt, drawLocals, SetupVars, drawFlashlightState]
  split_ifs <;> simp_all

theorem registerValue_drawCommands_extraFactors (params : Params) (ctx : ShaderContext)
    (st : DrawState) (lod : Int) :
    registerValue PSReg.PSREG_EXTRA_FACTORS (drawCommands params ctx st lod)
      = some [ctx.GetFloatParam EMISSIVEFACTOR params 1,
          ctx.GetFloatParam SPECULARFACTOR params 1,
          ctx.GetFloatParam SSSINTENSITY params 1,
          ctx.GetFloatParam SSSPOWERSCALE params 1] := by
  simp only [drawCommands, drawMaterialTextures, drawFlashlightTextures,
    drawShaders, drawOverrides, drawConstants, drawTail, registerValue_append, registerValue_ite]
  simp only [registerValue, writesAt_ite]
  simp [DynCmd.writesAt, drawLocals, SetupVars]

theorem registerValue_drawCommands_ssrParams (params : Params) (ctx : ShaderContext)
    (st : DrawState) (lod : Int) :
    registerValue (PSReg.number 50) (drawCommands params ctx st lod)
      = if (params ENABLESSR).intValue = 1 ∧ ctx.cvars.mat_pbr_ssr = true then
          some [1 / 2, 1 / 4, 1 / 10, ctx.cvars.mat_pbr_ssr_intensity]
        else none := by
  simp only [drawCommands, drawMaterialTextures, drawFlashlightTextures,
    drawShaders, drawOverrides, drawConstants, drawTail, registerValue_append, registerValue_ite]
  simp only [registerValue, writesAt_ite]
  simp [DynCmd.writesAt, drawLocals, SetupVars]

theorem registerValue_drawCommands_ssrParams2 (params : Params) (ctx : ShaderContext)
    (st : DrawState) (lod : Int) :
    registerValue (PSReg.number 51) (drawCommands params ctx st lod)
      = if (params ENABLESSR).intValue = 1 ∧ ctx.cvars.mat_pbr_ssr = true then
          some [(ctx.cvars.mat_pbr_ssr_step_count : ℚ), 35 / 100, 1 / 2,
            ctx.cvars.mat_pbr_ssr_roughness_threshold]
        else none := by
  simp only [drawCommands, drawMaterialTextures, drawFlashlightTextures,
    drawShaders, drawOverrides, drawConstants, drawTail, registerValue_append, registerValue_ite]
  simp only [registerValue, writesAt_ite]
  simp [DynCmd.writesAt, drawLocals, SetupVars]

/-- For every draw the last write to `PSREG_SHADER_CONTROLS` is
{`GetFloatParam(PARALLAXDEPTH, params, 3)`, `GetFloatParam(PARALLAXCENTER, params, 3)`,
0, 0}, whether or not parallax mapping is enabled. -/
theorem drawBranch_shaderControls (params : Params) (ctx : ShaderContext) (st : DrawState)
    (fuel : Nat) (hf : 32 ≤ fuel) (hw : envWidthInRange params = true) :
    ∃ cmds, drawBranch fuel params ctx st = some cmds
      ∧ registerValue PSReg.PSREG_SHADER_CONTROLS cmds
          = some [ctx.GetFloatParam PARALLAXDEPTH params 3,
              ctx.GetFloatParam PARALLAXCENTER params 3, 0, 0] :=
  ⟨_, drawBranch_returns fuel hf params ctx st hw,
    registerValue_drawCommands_shaderControls params ctx st _⟩

/-- A completed draw sets exactly one dynamic pixel-shader key.  Its
`WRITE_DEPTH_TO_DESTALPHA` and `WRITEWATERFOGTODESTALPHA` combos are both true
exactly when the surface is fully opaque, the device answers true to
`ShouldWriteDepthToDestAlpha` and the scene fog mode is
`MATERIAL_FOG_LINEAR_BELOW_FOG_Z`, and that is exactly when the condition of the
`AssertMsg` on lines 518-519 evaluates to false; on every other draw at most
one of the two is true and the assertion holds. -/
theorem alphaFlags_both_iff (params : Params) (ctx : ShaderContext) (st : DrawState)
    (fuel : Nat) (hf : 32 ≤ fuel) (hw : envWidthInRange params = true) :
    ∃ cmds key, drawBranch fuel params ctx st = some cmds
      ∧ dynamicPixelShaderKeys cmds = [key]
      ∧ ((key.WRITE_DEPTH_TO_DESTALPHA = true ∧ key.WRITEWATERFOGTODESTALPHA = true)
          ↔ ((ctx.EvaluateBlendRequirements BASETEXTURE true ≠ BlendType_t.BT_BLENDADD
                ∧ ctx.EvaluateBlendRequirements BASETEXTURE true ≠ BlendType_t.BT_BLEND
                ∧ ctx.flags.MATERIAL_VAR_ALPHATEST = false)
              ∧ st.ShouldWriteDepthToDestAlpha = true
              ∧ st.GetSceneFogMode = MaterialFogMode_t.MATERIAL_FOG_LINEAR_BELOW_FOG_Z))
      ∧ ((key.WRITE_DEPTH_TO_DESTALPHA = true ∧ key.WRITEWATERFOGTODESTALPHA = true)
          ↔ false ∈ assertMsgResults cmds) := by
  refine ⟨_, _, drawBranch_returns fuel hf params ctx st hw,
    dynamicPixelShaderKeys_drawCommands params ctx st _, ?_, ?_⟩
  · simp only [dynamicPixelShaderKey, drawWriteDepthToAlpha, drawWriteWaterFogToAlpha,
      drawLocals, SetupVars]
    simp
    tauto
  · rw [assertMsgResults_drawCommands]
    simp only [dynamicPixelShaderKey, drawWriteDepthToAlpha, drawWriteWaterFogToAlpha]
    split_ifs <;> simp

/-! ### Parameter initialisation -/

theorem INIT_FLOAT_PARM_other (params : Params) (name i : Int) (value : ℚ) (h : i ≠ name) :
    INIT_FLOAT_PARM params name value i = params i := by
  unfold INIT_FLOAT_PARM
  split
  · simp [Params.set, h]
  · rfl

theorem Params.set_ite_other (c : Prop) [Decidable c] (params : Params) (i j : Int)
    (v : MaterialVar) (h : j ≠ i) :
    (if c then params.set i v else params) j = params j := by
  split
  · simp [Params.set, h]
  · rfl

theorem Params.set_ite_set_other (c : Prop) [Decidable c] (params : Params) (i j : Int)
    (v w : MaterialVar) (h : j ≠ i) :
    (if c then params.set i v else params.set i w) j = params j := by
  split <;> simp [Params.set, h]

/-- What `SHADER_INIT_PARAMS` leaves in `BUMPMAP`: only its first two statements
write that parameter. -/
theorem SHADER_INIT_PARAMS_BUMPMAP (hw : HardwareConfig) (params : Params) :
    SHADER_INIT_PARAMS hw params BUMPMAP
      = if (params NORMALTEXTURE).isDefined = true then
          (params BUMPMAP).SetStringValue (params NORMALTEXTURE).stringValue
        else if (params BUMPMAP).isDefined = true then params BUMPMAP
        else (params BUMPMAP).SetStringValue "dev/flat_normal" := by
  simp only [SHADER_INIT_PARAMS]
  rw [INIT_FLOAT_PARM_other _ _ _ _ (by decide), INIT_FLOAT_PARM_other _ _ _ _ (by decide),
    INIT_FLOAT_PARM_other _ _ _ _ (by decide), INIT_FLOAT_PARM_other _ _ _ _ (by decide),
    INIT_FLOAT_PARM_other _ _ _ _ (by decide), INIT_FLOAT_PARM_other _ _ _ _ (by decide),
    INIT_FLOAT_PARM_other _ _ _ _ (by decide), INIT_FLOAT_PARM_other _ _ _ _ (by decide),
    INIT_FLOAT_PARM_other _ _ _ _ (by decide),
    Params.set_ite_set_other _ _ _ _ _ _ (by decide),
    Params.set_ite_other _ _ _ _ _ (by decide),
    Params.set_ite_other _ _ _ _ _ (by decide)]
  by_cases hN : (params NORMALTEXTURE).isDefined = true
  · simp [hN, Params.set, MaterialVar.SetStringValue]
  · by_cases hB : (params BUMPMAP).isDefined = true
    · simp [hN, hB, Params.set]
    · simp [hN, hB, Params.set]

theorem Params.set_ite_same (c : Prop) [Decidable c] (params : Params) (i : Int)
    (v : MaterialVar) :
    (if c then params.set i v else params) i = if c then v else params i := by
  split <;> simp [Params.set]

theorem Params.set_ite_set_same (c : Prop) [Decidable c] (params : Params) (i : Int)
    (v w : MaterialVar) :
    (if c then params.set i v else params.set i w) i = if c then v else w := by
  split <;> simp [Params.set]

/-- What `SHADER_INIT_PARAMS` leaves in `MRAOTEXTURE`: only the statement of lines
157-158 writes that parameter. -/
theorem SHADER_INIT_PARAMS_MRAOTEXTURE (hw : HardwareConfig) (params : Params) :
    SHADER_INIT_PARAMS hw params MRAOTEXTURE
      = if (params MRAOTEXTURE).isDefined = true then params MRAOTEXTURE
        else (params MRAOTEXTURE).SetStringValue "dev/pbr_mraotexture" := by
  simp only [SHADER_INIT_PARAMS]
  rw [INIT_FLOAT_PARM_other _ _ _ _ (by decide), INIT_FLOAT_PARM_other _ _ _ _ (by decide),
    INIT_FLOAT_PARM_other _ _ _ _ (by decide), INIT_FLOAT_PARM_other _ _ _ _ (by decide),
    INIT_FLOAT_PARM_other _ _ _ _ (by decide), INIT_FLOAT_PARM_other _ _ _ _ (by decide),
    INIT_FLOAT_PARM_other _ _ _ _ (by decide), INIT_FLOAT_PARM_other _ _ _ _ (by decide),
    INIT_FLOAT_PARM_other _ _ _ _ (by decide),
    Params.set_ite_set_other _ _ _ _ _ _ (by decide),
    Params.set_ite_other _ _ _ _ _ (by decide),
    Params.set_ite_same,
    Params.set_ite_other _ _ BUMPMAP MRAOTEXTURE _ (by decide),
    Params.set_ite_other _ _ BUMPMAP MRAOTEXTURE _ (by decide)]
  cases h : (params MRAOTEXTURE).isDefined <;> simp

/-- What `SHADER_INIT_PARAMS` leaves in `ENVMAP`: only the statement of lines 160-161
writes that parameter. -/
theorem SHADER_INIT_PARAMS_ENVMAP (hw : HardwareConfig) (params : Params) :
    SHADER_INIT_PARAMS hw params ENVMAP
      = if (params ENVMAP).isDefined = true then params ENVMAP
        else (params ENVMAP).SetStringValue "env_cubemap" := by
  simp only [SHADER_INIT_PARAMS]
  rw [INIT_FLOAT_PARM_other _ _ _ _ (by decide), INIT_FLOAT_PARM_other _ _ _ _ (by decide),
    INIT_FLOAT_PARM_other _ _ _ _ (by decide), INIT_FLOAT_PARM_other _ _ _ _ (by decide),
    INIT_FLOAT_PARM_other _ _ _ _ (by decide), INIT_FLOAT_PARM_other _ _ _ _ (by decide),
    INIT_FLOAT_PARM_other _ _ _ _ (by decide), INIT_FLOAT_PARM_other _ _ _ _ (by decide),
    INIT_FLOAT_PARM_other _ _ _ _ (by decide),
    Params.set_ite_set_other _ _ _ _ _ _ (by decide),
    Params.set_ite_same,
    Params.set_ite_other _ _ MRAOTEXTURE ENVMAP _ (by decide),
    Params.set_ite_other _ _ BUMPMAP ENVMAP _ (by decide),
    Params.set_ite_other _ _ BUMPMAP ENVMAP _ (by decide)]
  cases h : (params ENVMAP).isDefined <;> simp

/-- What `SHADER_INIT_PARAMS` leaves in `FLASHLIGHTTEXTURE`: the string chosen on lines
163-170. -/
theorem SHADER_INIT_PARAMS_FLASHLIGHTTEXTURE (hw : HardwareConfig) (params : Params) :
    (SHADER_INIT_PARAMS hw params FLASHLIGHTTEXTURE).stringValue
        = (if hw.SupportsBorderColor = true then "effects/flashlight_border"
            else "effects/flashlight001")
      ∧ (SHADER_INIT_PARAMS hw params FLASHLIGHTTEXTURE).isDefined = true := by
  simp only [SHADER_INIT_PARAMS]
  rw [INIT_FLOAT_PARM_other _ _ _ _ (by decide), INIT_FLOAT_PARM_other _ _ _ _ (by decide),
    INIT_FLOAT_PARM_other _ _ _ _ (by decide), INIT_FLOAT_PARM_other _ _ _ _ (by decide),
    INIT_FLOAT_PARM_other _ _ _ _ (by decide), INIT_FLOAT_PARM_other _ _ _ _ (by decide),
    INIT_FLOAT_PARM_other _ _ _ _ (by decide), INIT_FLOAT_PARM_other _ _ _ _ (by decide),
    INIT_FLOAT_PARM_other _ _ _ _ (by decide),
    Params.set_ite_set_same]
  cases hw.SupportsBorderColor <;> simp [MaterialVar.SetStringValue]

theorem SHADER_INIT_PARAMS_PARALLAXDEPTH (hw : HardwareConfig) (params : Params) :
    SHADER_INIT_PARAMS hw params PARALLAXDEPTH = params PARALLAXDEPTH := by
  simp only [SHADER_INIT_PARAMS]
  rw [INIT_FLOAT_PARM_other _ _ _ _ (by decide), INIT_FLOAT_PARM_other _ _ _ _ (by decide),
    INIT_FLOAT_PARM_other _ _ _ _ (by decide), INIT_FLOAT_PARM_other _ _ _ _ (by decide),
    INIT_FLOAT_PARM_other _ _ _ _ (by decide), INIT_FLOAT_PARM_other _ _ _ _ (by decide),
    INIT_FLOAT_PARM_other _ _ _ _ (by decide), INIT_FLOAT_PARM_other _ _ _ _ (by decide),
    INIT_FLOAT_PARM_other _ _ _ _ (by decide),
    Params.set_ite_set_other _ _ _ _ _ _ (by decide),
    Params.set_ite_other _ _ _ _ _ (by decide), Params.set_ite_other _ _ _ _ _ (by decide),
    Params.set_ite_other _ _ _ _ _ (by decide), Params.set_ite_other _ _ _ _ _ (by decide)]

theorem SHADER_INIT_PARAMS_PARALLAXCENTER (hw : HardwareConfig) (params : Params) :
    SHADER_INIT_PARAMS hw params PARALLAXCENTER = params PARALLAXCENTER := by
  simp only [SHADER_INIT_PARAMS]
  rw [INIT_FLOAT_PARM_other _ _ _ _ (by decide), INIT_FLOAT_PARM_other _ _ _ _ (by decide),
    INIT_FLOAT_PARM_other _ _ _ _ (by decide), INIT_FLOAT_PARM_other _ _ _ _ (by decide),
    INIT_FLOAT_PARM_other _ _ _ _ (by decide), INIT_FLOAT_PARM_other _ _ _ _ (by decide),
    INIT_FLOAT_PARM_other _ _ _ _ (by decide), INIT_FLOAT_PARM_other _ _ _ _ (by decide),
    INIT_FLOAT_PARM_other _ _ _ _ (by decide),
    Params.set_ite_set_other _ _ _ _ _ _ (by decide),
    Params.set_ite_other _ _ _ _ _ (by decide), Params.set_ite_other _ _ _ _ _ (by decide),
    Params.set_ite_other _ _ _ _ _ (by decide), Params.set_ite_other _ _ _ _ _ (by decide)]

theorem ssrTunedParams_same (i : Int) (h1 : i ≠ SSRINTENSITY) (h2 : i ≠ SSRQUALITY)
    (h3 : i ≠ SSRROUGHNESSTHRESHOLD) : ssrParams i = ssrTunedParams i := by
  simp [ssrTunedParams, Params.set, h1, h2, h3]

/-! ## Claims -/

/-- C2 (counterexample): with a flashlight active but no flashlight depth texture,
the snapshot branch enables the shadow-depth sampler and the draw branch for
the same material and flags leaves it unbound. -/
theorem C2_counterexample :
    SAMPLER_SHADOWDEPTH ∈ enabledSamplers (snapshotBranch flashlightParams flashlightContext)
      ∧ ∃ cmds, drawBranch 32 flashlightParams flashlightContext sampleState = some cmds
          ∧ boundTexture SAMPLER_SHADOWDEPTH cmds = none := by
  refine ⟨?_, _, drawBranch_returns 32 (le_refl _) flashlightParams flashlightContext
    sampleState (by decide), ?_⟩
  · rw [enabledSamplers_snapshotBranch]; decide
  · rw [boundTexture_drawCommands_shadowdepth]; decide

/-- C2 (as amended): the snapshot branch enables the base, emissive, lightmap, MRAO,
normal, specular, SSAO and thickness samplers always, shadow-depth,
random-rotation and flashlight when a flashlight is active, envmap when the
envmap parameter is a texture and lightwarp when the lightwarp parameter is a
texture; the draw branch for the same material and flags binds every one of
them, except that shadow-depth and random-rotation are bound only if the
flashlight has a depth texture, shadow-depth textures are enabled in the
configuration and the flashlight state enables shadows. -/
theorem C2_enabled_samplers_bound (params : Params) (ctx : ShaderContext) (st : DrawState)
    (fuel : Nat) (hf : 32 ≤ fuel) (hw : envWidthInRange params = true) :
    enabledSamplers (snapshotBranch params ctx)
        = [SAMPLER_BASETEXTURE, SAMPLER_EMISSIVE, SAMPLER_LIGHTMAP, SAMPLER_MRAO,
            SAMPLER_NORMAL, SAMPLER_SPECULAR, SAMPLER_SSAO, SAMPLER_THICKNESS]
          ++ (if ctx.UsingFlashlight = true then
                [SAMPLER_SHADOWDEPTH, SAMPLER_RANDOMROTATION, SAMPLER_FLASHLIGHT] else [])
          ++ (if (params ENVMAP).isTexture = true then [SAMPLER_ENVMAP] else [])
          ++ (if (params LIGHTWARPTEXTURE).isTexture = true then [SAMPLER_LIGHTWARP] else [])
      ∧ ∃ cmds, drawBranch fuel params ctx st = some cmds
          ∧ ∀ s ∈ enabledSamplers (snapshotBranch params ctx),
              ((boundTexture s cmds).isSome = true
                ↔ (s = SAMPLER_SHADOWDEPTH ∨ s = SAMPLER_RANDOMROTATION →
                    st.pFlashlightDepthTexture.isSome = true ∧ st.ShadowDepthTexture = true
                      ∧ st.flashlightState.m_bEnableShadows = true)) := by
  refine ⟨enabledSamplers_snapshotBranch params ctx, _,
    drawBranch_returns fuel hf params ctx st hw, ?_⟩
  rw [enabledSamplers_snapshotBranch]
  intro s hs
  simp only [List.mem_append, List.mem_cons, List.mem_singleton, List.not_mem_nil,
    or_false] at hs
  rcases hs with ((hs | hs) | hs) | hs
  · rcases hs with rfl | rfl | rfl | rfl | rfl | rfl | rfl | rfl
    · rw [boundTexture_drawCommands_base]; split_ifs <;> simp
    · rw [boundTexture_drawCommands_emissive]; split_ifs <;> simp
    · rw [boundTexture_drawCommands_lightmap]; simp
    · rw [boundTexture_drawCommands_mrao]; split_ifs <;> simp
    · rw [boundTexture_drawCommands_normal]; split_ifs <;> simp
    · rw [boundTexture_drawCommands_specular]; split_ifs <;> simp
    · rw [boundTexture_drawCommands_ssao]; split_ifs <;> simp
    · rw [boundTexture_drawCommands_thickness]; split_ifs <;> simp
  · by_cases hF : ctx.UsingFlashlight = true
    · simp only [hF, if_true, List.mem_cons, List.mem_singleton, List.not_mem_nil,
        or_false] at hs
      rcases hs with rfl | rfl | rfl
      · rw [boundTexture_drawCommands_shadowdepth]; split_ifs <;> simp_all
      · rw [boundTexture_drawCommands_randomrotation]; split_ifs <;> simp_all
      · rw [boundTexture_drawCommands_flashlight]; simp [hF]
    · simp [hF] at hs
  · by_cases hE : (params ENVMAP).isTexture = true
    · simp only [hE, if_true, List.mem_singleton] at hs
      subst hs
      rw [boundTexture_drawCommands_envmap]; split_ifs <;> simp
    · simp [hE] at hs
  · by_cases hL : (params LIGHTWARPTEXTURE).isTexture = true
    · simp only [hL, if_true, List.mem_singleton] at hs
      subst hs
      rw [boundTexture_drawCommands_lightwarp]; simp [hL]
    · simp [hL] at hs

/-- C2 (witness): the amended statement at a flashlight draw of the textured sample
material. -/
theorem C2_enabled_samplers_bound_witness :
    enabledSamplers (snapshotBranch flashlightParams flashlightContext)
        = [SAMPLER_BASETEXTURE, SAMPLER_EMISSIVE, SAMPLER_LIGHTMAP, SAMPLER_MRAO,
            SAMPLER_NORMAL, SAMPLER_SPECULAR, SAMPLER_SSAO, SAMPLER_THICKNESS]
          ++ (if flashlightContext.UsingFlashlight = true then
                [SAMPLER_SHADOWDEPTH, SAMPLER_RANDOMROTATION, SAMPLER_FLASHLIGHT] else [])
          ++ (if (flashlightParams ENVMAP).isTexture = true then [SAMPLER_ENVMAP] else [])
          ++ (if (flashlightParams LIGHTWARPTEXTURE).isTexture = true then [SAMPLER_LIGHTWARP]
              else [])
      ∧ ∃ cmds, drawBranch 32 flashlightParams flashlightContext sampleState = some cmds
          ∧ ∀ s ∈ enabledSamplers (snapshotBranch flashlightParams flashlightContext),
              ((boundTexture s cmds).isSome = true
                ↔ (s = SAMPLER_SHADOWDEPTH ∨ s = SAMPLER_RANDOMROTATION →
                    sampleState.pFlashlightDepthTexture.isSome = true
                      ∧ sampleState.ShadowDepthTexture = true
                      ∧ sampleState.flashlightState.m_bEnableShadows = true)) :=
  C2_enabled_samplers_bound flashlightParams flashlightContext sampleState 32 (by decide)
    (by decide)

/-- C3: for an environment texture of positive mapping width `w` (a 32-bit `int`),
the draw completes and component 3 of the value it writes to the eye-position
register is `floor(log2 w)` clamped to the range 4..12; widths 4096, 16, 8192
and 8 give 12, 4, 12 and 4. -/
theorem C3_envmap_lod (params : Params) (ctx : ShaderContext) (st : DrawState)
    (t : ITexture) (fuel : Nat) (hf : 32 ≤ fuel)
    (ht : (params ENVMAP).textureValue = some t)
    (hpos : 0 < t.mappingWidth) (hlt : t.mappingWidth < 2 ^ 31) :
    (∃ cmds, drawBranch fuel params ctx st = some cmds
        ∧ registerValue PSReg.PSREG_EYEPOS_SPEC_EXPONENT cmds
            = some [st.cameraPosition.getD 0 0, st.cameraPosition.getD 1 0,
                st.cameraPosition.getD 2 0,
                ((max 4 (min 12 (Nat.log 2 t.mappingWidth.toNat)) : Nat) : ℚ)])
      ∧ envMapLOD fuel (some { id := t.id, mappingWidth := 4096 }) = some 12
      ∧ envMapLOD fuel (some { id := t.id, mappingWidth := 16 }) = some 4
      ∧ envMapLOD fuel (some { id := t.id, mappingWidth := 8192 }) = some 12
      ∧ envMapLOD fuel (some { id := t.id, mappingWidth := 8 }) = some 4 := by
  have hw : envWidthInRange params = true := by
    simp only [envWidthInRange, ht, Bool.and_eq_true, decide_eq_true_eq]
    exact ⟨le_of_lt hpos, hlt⟩
  refine ⟨⟨_, drawBranch_returns fuel hf params ctx st hw, ?_⟩, ?_, ?_, ?_, ?_⟩
  · rw [registerValue_drawCommands_eyepos, ht]
    simp only [envMapLODValue]
    norm_cast
  · rw [envMapLOD_eq fuel hf _ (by intro u hu; cases hu; constructor <;> norm_num)]
    have h : Nat.log 2 4096 = 12 := Nat.log_eq_of_pow_le_of_lt_pow (by norm_num) (by norm_num)
    simp [envMapLODValue, h]
  · rw [envMapLOD_eq fuel hf _ (by intro u hu; cases hu; constructor <;> norm_num)]
    have h : Nat.log 2 16 = 4 := Nat.log_eq_of_pow_le_of_lt_pow (by norm_num) (by norm_num)
    simp [envMapLODValue, h]
  · rw [envMapLOD_eq fuel hf _ (by intro u hu; cases hu; constructor <;> norm_num)]
    have h : Nat.log 2 8192 = 13 := Nat.log_eq_of_pow_le_of_lt_pow (by norm_num) (by norm_num)
    simp [envMapLODValue, h]
  · rw [envMapLOD_eq fuel hf _ (by intro u hu; cases hu; constructor <;> norm_num)]
    have h : Nat.log 2 8 = 3 := Nat.log_eq_of_pow_le_of_lt_pow (by norm_num) (by norm_num)
    simp [envMapLODValue, h]

/-- C3 (witness): the sample material's environment map is 4096 wide, and the
register's component 3 is the clamped `floor(log2 4096)`. -/
theorem C3_envmap_lod_witness :
    (∃ cmds, drawBranch 32 texturedParams sampleContext sampleState = some cmds
        ∧ registerValue PSReg.PSREG_EYEPOS_SPEC_EXPONENT cmds
            = some [sampleState.cameraPosition.getD 0 0, sampleState.cameraPosition.getD 1 0,
                sampleState.cameraPosition.getD 2 0,
                ((max 4 (min 12 (Nat.log 2 (4096 : Int).toNat)) : Nat) : ℚ)])
      ∧ envMapLOD 32 (some { id := 1, mappingWidth := 4096 }) = some 12
      ∧ envMapLOD 32 (some { id := 1, mappingWidth := 16 }) = some 4
      ∧ envMapLOD 32 (some { id := 1, mappingWidth := 8192 }) = some 12
      ∧ envMapLOD 32 (some { id := 1, mappingWidth := 8 }) = some 4 :=
  C3_envmap_lod texturedParams sampleContext sampleState { id := 1, mappingWidth := 4096 } 32
    (by decide) (by decide) (by decide) (by decide)

/-- C4: when the evaluated blend type is `BT_BLENDADD` or `BT_BLEND`, or the
material is flagged alpha-tested, the one dynamic pixel-shader key the draw
sets has `WRITE_DEPTH_TO_DESTALPHA` and `WRITEWATERFOGTODESTALPHA` both false,
whatever the device answers and whatever the fog mode is. -/
theorem C4_not_opaque_flags_false (params : Params) (ctx : ShaderContext) (st : DrawState)
    (fuel : Nat) (hf : 32 ≤ fuel) (hw : envWidthInRange params = true)
    (hno : ctx.EvaluateBlendRequirements BASETEXTURE true = BlendType_t.BT_BLENDADD
      ∨ ctx.EvaluateBlendRequirements BASETEXTURE true = BlendType_t.BT_BLEND
      ∨ ctx.flags.MATERIAL_VAR_ALPHATEST = true) :
    ∃ cmds key, drawBranch fuel params ctx st = some cmds
      ∧ dynamicPixelShaderKeys cmds = [key]
      ∧ key.WRITE_DEPTH_TO_DESTALPHA = false ∧ key.WRITEWATERFOGTODESTALPHA = false := by
  have hopaque : (drawLocals params ctx).bFullyOpaque = false := by
    simp only [drawLocals, SetupVars]
    rcases hno with h | h | h <;> simp [h]
  refine ⟨_, _, drawBranch_returns fuel hf params ctx st hw,
    dynamicPixelShaderKeys_drawCommands params ctx st _, ?_, ?_⟩
  · simp [dynamicPixelShaderKey, drawWriteDepthToAlpha, hopaque]
  · simp [dynamicPixelShaderKey, drawWriteWaterFogToAlpha, hopaque]

/-- C4 (witness): an alpha-tested material drawn under water with the device asking
for depth in destination alpha. -/
theorem C4_not_opaque_flags_false_witness :
    ∃ cmds key, drawBranch 32 emptyParams alphaTestedContext belowFogDepthState = some cmds
      ∧ dynamicPixelShaderKeys cmds = [key]
      ∧ key.WRITE_DEPTH_TO_DESTALPHA = false ∧ key.WRITEWATERFOGTODESTALPHA = false :=
  C4_not_opaque_flags_false emptyParams alphaTestedContext belowFogDepthState 32 (by decide)
    (by decide) (Or.inr (Or.inr (by decide)))

/-- C5 (counterexample): with `mat_fullbright 2` the base-colour sampler of a material
whose base parameter is a texture is bound to the grey standard texture, not to
the material's texture. -/
theorem C5_counterexample :
    (texturedParams BASETEXTURE).isTexture = true
      ∧ ∃ cmds, drawBranch 32 texturedParams lightingOnlyContext sampleState = some cmds
          ∧ boundTexture SAMPLER_BASETEXTURE cmds
              = some (Binding.standardTexture StandardTextureId.TEXTURE_GREY)
          ∧ boundTexture SAMPLER_BASETEXTURE cmds
              ≠ some (Binding.materialTexture BASETEXTURE FRAME) := by
  refine ⟨by decide, _, drawBranch_returns 32 (le_refl _) texturedParams lightingOnlyContext
    sampleState (by decide), ?_, ?_⟩
  · rw [boundTexture_drawCommands_base]; decide
  · rw [boundTexture_drawCommands_base]; decide

/-- C5 (as amended): when the draw is issued, the emissive, normal, MRAO and specular
samplers hold the material's texture if the parameter is a texture and
otherwise black, flat-normal, white and black; the base sampler holds the
material's texture if the parameter is a texture and the lighting-only debug
view (`mat_fullbright 2` without `MATERIAL_VAR_NO_DEBUG_OVERRIDE`) is off, and
grey otherwise; the environment sampler holds the material's texture if the
parameter is a texture and `mat_specular` is on, and black otherwise; the SSAO
sampler holds the ambient-occlusion buffer if there is one and white
otherwise. -/
theorem C5_sampler_bindings (params : Params) (ctx : ShaderContext) (st : DrawState)
    (fuel : Nat) (hf : 32 ≤ fuel) (hw : envWidthInRange params = true) :
    ∃ cmds, drawBranch fuel params ctx st = some cmds
      ∧ boundTexture SAMPLER_BASETEXTURE cmds
          = (if (params BASETEXTURE).isTexture = true
                ∧ ¬ (ctx.cvars.mat_fullbright = 2
                      ∧ ctx.flags.MATERIAL_VAR_NO_DEBUG_OVERRIDE = false)
              then some (Binding.materialTexture BASETEXTURE FRAME)
              else some (Binding.standardTexture StandardTextureId.TEXTURE_GREY))
      ∧ boundTexture SAMPLER_ENVMAP cmds
          = (if (params ENVMAP).isTexture = true ∧ ctx.cvars.mat_specular = true
              then some (Binding.materialTexture ENVMAP 0)
              else some (Binding.standardTexture StandardTextureId.TEXTURE_BLACK))
      ∧ boundTexture SAMPLER_EMISSIVE cmds
          = (if (params EMISSIONTEXTURE).isTexture = true
              then some (Binding.materialTexture EMISSIONTEXTURE 0)
              else some (Binding.standardTexture StandardTextureId.TEXTURE_BLACK))
      ∧ boundTexture SAMPLER_NORMAL cmds
          = (if (params BUMPMAP).isTexture = true
              then some (Binding.materialTexture BUMPMAP 0)
              else some (Binding.standardTexture StandardTextureId.TEXTURE_NORMALMAP_FLAT))
      ∧ boundTexture SAMPLER_MRAO cmds
          = (if (params MRAOTEXTURE).isTexture = true
              then some (Binding.materialTexture MRAOTEXTURE 0)
              else some (Binding.standardTexture StandardTextureId.TEXTURE_WHITE))
      ∧ boundTexture SAMPLER_SPECULAR cmds
          = (if (params SPECULARTEXTURE).isTexture = true
              then some (Binding.materialTexture SPECULARTEXTURE 0)
              else some (Binding.standardTexture StandardTextureId.TEXTURE_BLACK))
      ∧ boundTexture SAMPLER_SSAO cmds
          = (if st.pAOTexture.isSome = true
              then some (Binding.textureObject st.pAOTexture 0)
              else some (Binding.standardTexture StandardTextureId.TEXTURE_WHITE)) := by
  refine ⟨_, drawBranch_returns fuel hf params ctx st hw, ?_, ?_,
    boundTexture_drawCommands_emissive params ctx st _,
    boundTexture_drawCommands_normal params ctx st _,
    boundTexture_drawCommands_mrao params ctx st _,
    boundTexture_drawCommands_specular params ctx st _,
    boundTexture_drawCommands_ssao params ctx st _⟩
  · rw [boundTexture_drawCommands_base]
    split_ifs <;> simp_all
  · rw [boundTexture_drawCommands_envmap]
    split_ifs <;> simp_all

/-- C5 (witness): the amended statement at the textured sample material. -/
theorem C5_sampler_bindings_witness :
    ∃ cmds, drawBranch 32 texturedParams sampleContext sampleState = some cmds
      ∧ boundTexture SAMPLER_BASETEXTURE cmds
          = (if (texturedParams BASETEXTURE).isTexture = true
                ∧ ¬ (sampleContext.cvars.mat_fullbright = 2
                      ∧ sampleContext.flags.MATERIAL_VAR_NO_DEBUG_OVERRIDE = false)
              then some (Binding.materialTexture BASETEXTURE FRAME)
              else some (Binding.standardTexture StandardTextureId.TEXTURE_GREY))
      ∧ boundTexture SAMPLER_ENVMAP cmds
          = (if (texturedParams ENVMAP).isTexture = true ∧ sampleContext.cvars.mat_specular = true
              then some (Binding.materialTexture ENVMAP 0)
              else some (Binding.standardTexture StandardTextureId.TEXTURE_BLACK))
      ∧ boundTexture SAMPLER_EMISSIVE cmds
          = (if (texturedParams EMISSIONTEXTURE).isTexture = true
              then some (Binding.materialTexture EMISSIONTEXTURE 0)
              else some (Binding.standardTexture StandardTextureId.TEXTURE_BLACK))
      ∧ boundTexture SAMPLER_NORMAL cmds
          = (if (texturedParams BUMPMAP).isTexture = true
              then some (Binding.materialTexture BUMPMAP 0)
              else some (Binding.standardTexture StandardTextureId.TEXTURE_NORMALMAP_FLAT))
      ∧ boundTexture SAMPLER_MRAO cmds
          = (if (texturedParams MRAOTEXTURE).isTexture = true
              then some (Binding.materialTexture MRAOTEXTURE 0)
              else some (Binding.standardTexture StandardTextureId.TEXTURE_WHITE))
      ∧ boundTexture SAMPLER_SPECULAR cmds
          = (if (texturedParams SPECULARTEXTURE).isTexture = true
              then some (Binding.materialTexture SPECULARTEXTURE 0)
              else some (Binding.standardTexture StandardTextureId.TEXTURE_BLACK))
      ∧ boundTexture SAMPLER_SSAO cmds
          = (if sampleState.pAOTexture.isSome = true
              then some (Binding.textureObject sampleState.pAOTexture 0)
              else some (Binding.standardTexture StandardTextureId.TEXTURE_WHITE)) :=
  C5_sampler_bindings texturedParams sampleContext sampleState 32 (by decide) (by decide)

/-- C6 (counterexample): a draw of a material without a thickness texture binds the
thickness sampler to the white standard texture, which is not the black one. -/
theorem C6_counterexample :
    (drawLocals emptyParams sampleContext).bHasSSS = false
      ∧ ∃ cmds, drawBranch 32 emptyParams sampleContext sampleState = some cmds
          ∧ boundTexture SAMPLER_THICKNESS cmds
              = some (Binding.standardTexture StandardTextureId.TEXTURE_WHITE)
          ∧ boundTexture SAMPLER_THICKNESS cmds
              ≠ some (Binding.standardTexture StandardTextureId.TEXTURE_BLACK) := by
  refine ⟨by decide, _, drawBranch_returns 32 (le_refl _) emptyParams sampleContext
    sampleState (by decide), ?_, ?_⟩
  · rw [boundTexture_drawCommands_thickness]; decide
  · rw [boundTexture_drawCommands_thickness]; decide

/-- C6 (as amended): whenever subsurface scattering is not active for the draw (the
thickness parameter is not a texture, or `SUBSURFACESCATTERING` is not 1, or
the global toggle is off), the thickness sampler is bound to the white standard
texture. -/
theorem C6_thickness_default_white (params : Params) (ctx : ShaderContext) (st : DrawState)
    (fuel : Nat) (hf : 32 ≤ fuel) (hw : envWidthInRange params = true)
    (hsss : ¬ ((params SSSTHICKNESS).isTexture = true
      ∧ (params SUBSURFACESCATTERING).intValue = 1
      ∧ ctx.cvars.mat_pbr_subsurfacescattering = true)) :
    ∃ cmds, drawBranch fuel params ctx st = some cmds
      ∧ boundTexture SAMPLER_THICKNESS cmds
          = some (Binding.standardTexture StandardTextureId.TEXTURE_WHITE) := by
  refine ⟨_, drawBranch_returns fuel hf params ctx st hw, ?_⟩
  rw [boundTexture_drawCommands_thickness]
  have : (drawLocals params ctx).bHasSSS = false := by
    simp only [drawLocals, SetupVars]
    simp only [not_and, Bool.not_eq_true] at hsss
    simp
    intro h1 h2
    exact hsss h1 h2
  simp [this]

/-- C6 (witness): the amended statement at the empty sample material. -/
theorem C6_thickness_default_white_witness :
    ∃ cmds, drawBranch 32 emptyParams sampleContext sampleState = some cmds
      ∧ boundTexture SAMPLER_THICKNESS cmds
          = some (Binding.standardTexture StandardTextureId.TEXTURE_WHITE) :=
  C6_thickness_default_white emptyParams sampleContext sampleState 32 (by decide) (by decide)
    (by decide)

/-- C7: `bHasSSS` is true exactly when the thickness parameter is a texture,
`SUBSURFACESCATTERING` equals 1 and `mat_pbr_subsurfacescattering` is on; the
`SUBSURFACESCATTERING` static combo is that value; and with the global toggle
off the combo is false and the draw binds the white standard texture to the
thickness sampler. -/
theorem C7_subsurface_gate (params : Params) (ctx : ShaderContext) (st : DrawState)
    (fuel : Nat) (hf : 32 ≤ fuel) (hw : envWidthInRange params = true) :
    ((drawLocals params ctx).bHasSSS = true
        ↔ ((params SSSTHICKNESS).isTexture = true
            ∧ (params SUBSURFACESCATTERING).intValue = 1
            ∧ ctx.cvars.mat_pbr_subsurfacescattering = true))
      ∧ (staticPixelShaderKeys (snapshotBranch params ctx)).map
            StaticPixelShaderKey.SUBSURFACESCATTERING
          = [(drawLocals params ctx).bHasSSS]
      ∧ (ctx.cvars.mat_pbr_subsurfacescattering = false →
          (staticPixelShaderKeys (snapshotBranch params ctx)).map
              StaticPixelShaderKey.SUBSURFACESCATTERING = [false]
            ∧ ∃ cmds, drawBranch fuel params ctx st = some cmds
                ∧ boundTexture SAMPLER_THICKNESS cmds
                    = some (Binding.standardTexture StandardTextureId.TEXTURE_WHITE)) := by
  have hiff : (drawLocals params ctx).bHasSSS = true
      ↔ ((params SSSTHICKNESS).isTexture = true
          ∧ (params SUBSURFACESCATTERING).intValue = 1
          ∧ ctx.cvars.mat_pbr_subsurfacescattering = true) := by
    simp only [drawLocals, SetupVars]
    simp
    tauto
  refine ⟨hiff, ?_, ?_⟩
  · rw [staticPixelShaderKeys_snapshotBranch]
    simp [staticPixelShaderKey]
  · intro hoff
    have hfalse : (drawLocals params ctx).bHasSSS = false := by
      cases h : (drawLocals params ctx).bHasSSS
      · rfl
      · have := (hiff.mp h).2.2
        rw [hoff] at this
        exact absurd this (by decide)
    refine ⟨?_, _, drawBranch_returns fuel hf params ctx st hw, ?_⟩
    · rw [staticPixelShaderKeys_snapshotBranch]
      simp [staticPixelShaderKey, hfalse]
    · rw [boundTexture_drawCommands_thickness]
      simp [hfalse]

/-- C7 (witness): a material with a thickness texture and the subsurface flag set,
drawn with the global toggle off. -/
theorem C7_subsurface_gate_witness :
    ((drawLocals subsurfaceParams subsurfaceOffContext).bHasSSS = true
        ↔ ((subsurfaceParams SSSTHICKNESS).isTexture = true
            ∧ (subsurfaceParams SUBSURFACESCATTERING).intValue = 1
            ∧ subsurfaceOffContext.cvars.mat_pbr_subsurfacescattering = true))
      ∧ (staticPixelShaderKeys (snapshotBranch subsurfaceParams subsurfaceOffContext)).map
            StaticPixelShaderKey.SUBSURFACESCATTERING
          = [(drawLocals subsurfaceParams subsurfaceOffContext).bHasSSS]
      ∧ ((staticPixelShaderKeys (snapshotBranch subsurfaceParams subsurfaceOffContext)).map
              StaticPixelShaderKey.SUBSURFACESCATTERING = [false]
            ∧ ∃ cmds, drawBranch 32 subsurfaceParams subsurfaceOffContext sampleState = some cmds
                ∧ boundTexture SAMPLER_THICKNESS cmds
                    = some (Binding.standardTexture StandardTextureId.TEXTURE_WHITE)) :=
  have h := C7_subsurface_gate subsurfaceParams subsurfaceOffContext sampleState 32
    (by decide) (by decide)
  ⟨h.1, h.2.1, h.2.2 (by decide)⟩

/-- C8: whatever `EvaluateBlendRequirements` returns for the base texture, the blending
calls of the snapshot branch are `EnableBlending(true)` followed by
`BlendFunc(SHADER_BLEND_ONE, SHADER_BLEND_ONE)` and nothing else when a
flashlight is active, and the single call
`SetDefaultBlendingShadowState(baseTexture, true)` when none is. -/
theorem C8_flashlight_blend_override (params : Params) (ctx : ShaderContext) :
    blendingCalls (snapshotBranch params ctx)
      = if ctx.UsingFlashlight = true then
          [ShadowCmd.EnableBlending true,
           ShadowCmd.BlendFunc ShaderBlendFactor_t.SHADER_BLEND_ONE
            ShaderBlendFactor_t.SHADER_BLEND_ONE]
        else [ShadowCmd.SetDefaultBlendingShadowState BASETEXTURE true] := by
  simp only [blendingCalls, snapshotBranch, snapshotAlphaBlend, snapshotSamplers,
    snapshotShaders, List.filter_append, apply_ite (List.filter _), List.filter_cons,
    List.filter_nil]
  simp [drawLocals, SetupVars]

/-- C9: the alpha-test calls of the snapshot branch are `EnableAlphaTest` with the
material's alpha-test flag, followed by `AlphaFunc(SHADER_ALPHAFUNC_GEQUAL, ref)`
exactly when the `ALPHATESTREFERENCE` value `ref` is greater than 0; a material
flagged alpha-tested with reference 0 gets `EnableAlphaTest(true)` and no
`AlphaFunc` call. -/
theorem C9_alpha_test_state (params : Params) (ctx : ShaderContext) :
    alphaTestCalls (snapshotBranch params ctx)
        = [ShadowCmd.EnableAlphaTest ctx.flags.MATERIAL_VAR_ALPHATEST]
          ++ (if (params ALPHATESTREFERENCE).floatValue > 0 then
                [ShadowCmd.AlphaFunc ShaderAlphaFunc_t.SHADER_ALPHAFUNC_GEQUAL
                  (params ALPHATESTREFERENCE).floatValue]
              else [])
      ∧ (ctx.flags.MATERIAL_VAR_ALPHATEST = true → (params ALPHATESTREFERENCE).floatValue = 0 →
          alphaTestCalls (snapshotBranch params ctx) = [ShadowCmd.EnableAlphaTest true]) := by
  have h : alphaTestCalls (snapshotBranch params ctx)
      = [ShadowCmd.EnableAlphaTest ctx.flags.MATERIAL_VAR_ALPHATEST]
        ++ (if (params ALPHATESTREFERENCE).floatValue > 0 then
              [ShadowCmd.AlphaFunc ShaderAlphaFunc_t.SHADER_ALPHAFUNC_GEQUAL
                (params ALPHATESTREFERENCE).floatValue]
            else []) := by
    simp only [alphaTestCalls, snapshotBranch, snapshotAlphaBlend, snapshotSamplers,
      snapshotShaders, List.filter_append, apply_ite (List.filter _), List.filter_cons,
      List.filter_nil]
    simp [drawLocals, SetupVars]
  refine ⟨h, ?_⟩
  intro hflag href
  rw [h, hflag, href]
  simp

/-- C9 (witness): an alpha-tested material whose reference is 0. -/
theorem C9_alpha_test_state_witness :
    alphaTestCalls (snapshotBranch emptyParams alphaTestedContext)
        = [ShadowCmd.EnableAlphaTest alphaTestedContext.flags.MATERIAL_VAR_ALPHATEST]
          ++ (if (emptyParams ALPHATESTREFERENCE).floatValue > 0 then
                [ShadowCmd.AlphaFunc ShaderAlphaFunc_t.SHADER_ALPHAFUNC_GEQUAL
                  (emptyParams ALPHATESTREFERENCE).floatValue]
              else [])
      ∧ alphaTestCalls (snapshotBranch emptyParams alphaTestedContext)
          = [ShadowCmd.EnableAlphaTest true] :=
  have h := C9_alpha_test_state emptyParams alphaTestedContext
  ⟨h.1, h.2 (by decide) (by decide)⟩

/-- C10: when `NORMALTEXTURE` is defined and `BUMPMAP` is not, after
`SHADER_INIT_PARAMS` the `BUMPMAP` parameter is defined and holds
`NORMALTEXTURE`'s string value (so it holds the flat-normal default only if
that is the string `NORMALTEXTURE` itself held). -/
theorem C10_normaltexture_alias (hw : HardwareConfig) (params : Params)
    (hN : (params NORMALTEXTURE).isDefined = true)
    (hB : (params BUMPMAP).isDefined = false) :
    (SHADER_INIT_PARAMS hw params BUMPMAP).isDefined = true
      ∧ (SHADER_INIT_PARAMS hw params BUMPMAP).stringValue = (params NORMALTEXTURE).stringValue
      ∧ ((params NORMALTEXTURE).stringValue ≠ "dev/flat_normal" →
          (SHADER_INIT_PARAMS hw params BUMPMAP).stringValue ≠ "dev/flat_normal") := by
  have _ := hB
  rw [SHADER_INIT_PARAMS_BUMPMAP, if_pos hN]
  refine ⟨rfl, rfl, fun h => h⟩

/-- C10 (witness): a material that only defines the deprecated parameter. -/
theorem C10_normaltexture_alias_witness :
    (SHADER_INIT_PARAMS sampleContext.hw legacyNormalParams BUMPMAP).isDefined = true
      ∧ (SHADER_INIT_PARAMS sampleContext.hw legacyNormalParams BUMPMAP).stringValue
          = (legacyNormalParams NORMALTEXTURE).stringValue
      ∧ ((legacyNormalParams NORMALTEXTURE).stringValue ≠ "dev/flat_normal" →
          (SHADER_INIT_PARAMS sampleContext.hw legacyNormalParams BUMPMAP).stringValue
            ≠ "dev/flat_normal") :=
  C10_normaltexture_alias sampleContext.hw legacyNormalParams (by decide) (by decide)

/-- C11: after `SHADER_INIT_PARAMS`, `BUMPMAP` is "dev/flat_normal" when neither
`NORMALTEXTURE` nor `BUMPMAP` was defined; an undefined `MRAOTEXTURE` becomes
"dev/pbr_mraotexture" and an undefined `ENVMAP` becomes "env_cubemap", each
left exactly as it was when defined; and `FLASHLIGHTTEXTURE` is
"effects/flashlight_border" when the hardware supports border colour and
"effects/flashlight001" otherwise. -/
theorem C11_hard_defaults (hw : HardwareConfig) (params : Params) :
    ((params NORMALTEXTURE).isDefined = false → (params BUMPMAP).isDefined = false →
        (SHADER_INIT_PARAMS hw params BUMPMAP).stringValue = "dev/flat_normal"
          ∧ (SHADER_INIT_PARAMS hw params BUMPMAP).isDefined = true)
      ∧ ((params MRAOTEXTURE).isDefined = false →
          (SHADER_INIT_PARAMS hw params MRAOTEXTURE).stringValue = "dev/pbr_mraotexture"
            ∧ (SHADER_INIT_PARAMS hw params MRAOTEXTURE).isDefined = true)
      ∧ ((params MRAOTEXTURE).isDefined = true →
          SHADER_INIT_PARAMS hw params MRAOTEXTURE = params MRAOTEXTURE)
      ∧ ((params ENVMAP).isDefined = false →
          (SHADER_INIT_PARAMS hw params ENVMAP).stringValue = "env_cubemap"
            ∧ (SHADER_INIT_PARAMS hw params ENVMAP).isDefined = true)
      ∧ ((params ENVMAP).isDefined = true →
          SHADER_INIT_PARAMS hw params ENVMAP = params ENVMAP)
      ∧ (SHADER_INIT_PARAMS hw params FLASHLIGHTTEXTURE).stringValue
          = (if hw.SupportsBorderColor = true then "effects/flashlight_border"
              else "effects/flashlight001") := by
  refine ⟨?_, ?_, ?_, ?_, ?_, (SHADER_INIT_PARAMS_FLASHLIGHTTEXTURE hw params).1⟩
  · intro hN hB
    rw [SHADER_INIT_PARAMS_BUMPMAP]
    simp [hN, hB, MaterialVar.SetStringValue]
  · intro h
    rw [SHADER_INIT_PARAMS_MRAOTEXTURE]
    simp [h, MaterialVar.SetStringValue]
  · intro h
    rw [SHADER_INIT_PARAMS_MRAOTEXTURE, if_pos h]
  · intro h
    rw [SHADER_INIT_PARAMS_ENVMAP]
    simp [h, MaterialVar.SetStringValue]
  · intro h
    rw [SHADER_INIT_PARAMS_ENVMAP, if_pos h]

/-- C11 (witness): the empty material gets all four defaults on hardware with border
colour, and a material naming its own MRAO texture and environment map keeps
them. -/
theorem C11_hard_defaults_witness :
    ((SHADER_INIT_PARAMS sampleContext.hw emptyParams BUMPMAP).stringValue = "dev/flat_normal"
        ∧ (SHADER_INIT_PARAMS sampleContext.hw emptyParams BUMPMAP).isDefined = true)
      ∧ ((SHADER_INIT_PARAMS sampleContext.hw emptyParams MRAOTEXTURE).stringValue
            = "dev/pbr_mraotexture"
          ∧ (SHADER_INIT_PARAMS sampleContext.hw emptyParams MRAOTEXTURE).isDefined = true)
      ∧ SHADER_INIT_PARAMS sampleContext.hw namedMapsParams MRAOTEXTURE
          = namedMapsParams MRAOTEXTURE
      ∧ ((SHADER_INIT_PARAMS sampleContext.hw emptyParams ENVMAP).stringValue = "env_cubemap"
          ∧ (SHADER_INIT_PARAMS sampleContext.hw emptyParams ENVMAP).isDefined = true)
      ∧ SHADER_INIT_PARAMS sampleContext.hw namedMapsParams ENVMAP = namedMapsParams ENVMAP
      ∧ (SHADER_INIT_PARAMS sampleContext.hw emptyParams FLASHLIGHTTEXTURE).stringValue
          = (if sampleContext.hw.SupportsBorderColor = true then "effects/flashlight_border"
              else "effects/flashlight001") :=
  have h := C11_hard_defaults sampleContext.hw emptyParams
  have g := C11_hard_defaults sampleContext.hw namedMapsParams
  ⟨h.1 (by decide) (by decide), h.2.1 (by decide), g.2.2.1 (by decide),
    h.2.2.2.1 (by decide), g.2.2.2.2.1 (by decide), h.2.2.2.2.2⟩

/-- C12 (the code at the failing input): a material with no parameter defined is put
through `SHADER_INIT_PARAMS`, which gives `METALNESSFACTOR` its default 1 but
leaves `PARALLAXDEPTH` and `PARALLAXCENTER` undefined, and is then drawn.  The
shader-controls register receives {0, 0, 0, 0} when `GetFloatParam` falls back
only for the index -1 (the stored values), and {3, 3, 0, 0} when it falls back
for an undefined parameter (the constant on lines 678-679); in neither case is
component 1 the declared default 0.5. -/
theorem C12_undefined_parallax_packed :
    (initialisedEmptyParams METALNESSFACTOR).floatValue = 1
      ∧ (initialisedEmptyParams PARALLAXDEPTH).isDefined = false
      ∧ (initialisedEmptyParams PARALLAXCENTER).isDefined = false
      ∧ (∃ cmds, drawBranch 32 initialisedEmptyParams sampleContext sampleState = some cmds
          ∧ registerValue PSReg.PSREG_SHADER_CONTROLS cmds = some [0, 0, 0, 0]
          ∧ registerValue PSReg.PSREG_SHADER_CONTROLS cmds ≠ some [0, 1 / 2, 0, 0])
      ∧ (∃ cmds, drawBranch 32 initialisedEmptyParams fallbackContext sampleState = some cmds
          ∧ registerValue PSReg.PSREG_SHADER_CONTROLS cmds = some [3, 3, 0, 0]
          ∧ registerValue PSReg.PSREG_SHADER_CONTROLS cmds ≠ some [0, 1 / 2, 0, 0]) := by
  have hd : initialisedEmptyParams PARALLAXDEPTH = undefinedVar :=
    SHADER_INIT_PARAMS_PARALLAXDEPTH _ _
  have hc : initialisedEmptyParams PARALLAXCENTER = undefinedVar :=
    SHADER_INIT_PARAMS_PARALLAXCENTER _ _
  have hg : sampleContext.GetFloatParam = GetFloatParamByIndex := rfl
  have hf : fallbackContext.GetFloatParam = GetFloatParamWhenDefined := rfl
  refine ⟨by decide, by rw [hd]; rfl, by rw [hc]; rfl,
    ⟨_, drawBranch_returns 32 (le_refl _) _ sampleContext sampleState (by decide), ?_, ?_⟩,
    ⟨_, drawBranch_returns 32 (le_refl _) _ fallbackContext sampleState (by decide), ?_, ?_⟩⟩
  · rw [registerValue_drawCommands_shaderControls, hg]
    simp [GetFloatParamByIndex, hd, hc, undefinedVar]
  · rw [registerValue_drawCommands_shaderControls, hg]
    simp [GetFloatParamByIndex, hd, hc, undefinedVar]
  · rw [registerValue_drawCommands_shaderControls, hf]
    simp [GetFloatParamWhenDefined, hd, hc, undefinedVar]
  · rw [registerValue_drawCommands_shaderControls, hf]
    simp [GetFloatParamWhenDefined, hd, hc, undefinedVar]

/-- C13: for every draw the MRAO-factors register holds {metalness, roughness,
ambient-occlusion, SSAO factor times strength} and the extra-factors register
{emissive, specular, subsurface intensity, subsurface power scale}, each factor
read with `GetFloatParam(…, params, 1)`; the strength is the flashlight state's
`m_flAmbientOcclusion` when a flashlight is active and 1 when none is, so that
without a flashlight component 3 is the SSAO factor itself. -/
theorem C13_factor_registers (params : Params) (ctx : ShaderContext) (st : DrawState)
    (fuel : Nat) (hf : 32 ≤ fuel) (hw : envWidthInRange params = true) :
    ∃ cmds, drawBranch fuel params ctx st = some cmds
      ∧ registerValue PSReg.PSREG_MRAO_FACTORS cmds
          = some [ctx.GetFloatParam METALNESSFACTOR params 1,
              ctx.GetFloatParam ROUGHNESSFACTOR params 1,
              ctx.GetFloatParam AOFACTOR params 1,
              ctx.GetFloatParam SSAOFACTOR params 1
                * (if ctx.UsingFlashlight = true then st.flashlightState.m_flAmbientOcclusion
                    else 1)]
      ∧ registerValue PSReg.PSREG_EXTRA_FACTORS cmds
          = some [ctx.GetFloatParam EMISSIVEFACTOR params 1,
              ctx.GetFloatParam SPECULARFACTOR params 1,
              ctx.GetFloatParam SSSINTENSITY params 1,
              ctx.GetFloatParam SSSPOWERSCALE params 1]
      ∧ (ctx.UsingFlashlight = false →
          registerValue PSReg.PSREG_MRAO_FACTORS cmds
            = some [ctx.GetFloatParam METALNESSFACTOR params 1,
                ctx.GetFloatParam ROUGHNESSFACTOR params 1,
                ctx.GetFloatParam AOFACTOR params 1,
                ctx.GetFloatParam SSAOFACTOR params 1]) := by
  refine ⟨_, drawBranch_returns fuel hf params ctx st hw, ?_,
    registerValue_drawCommands_extraFactors params ctx st _, ?_⟩
  · rw [registerValue_drawCommands_mraoFactors]
    simp
  · intro h
    rw [registerValue_drawCommands_mraoFactors]
    simp [h]

/-- C13 (witness): the statement at a flashlight draw and, for its last part, at a
draw without flashlight. -/
theorem C13_factor_registers_witness :
    (∃ cmds, drawBranch 32 flashlightParams flashlightContext sampleState = some cmds
        ∧ registerValue PSReg.PSREG_MRAO_FACTORS cmds
            = some [flashlightContext.GetFloatParam METALNESSFACTOR flashlightParams 1,
                flashlightContext.GetFloatParam ROUGHNESSFACTOR flashlightParams 1,
                flashlightContext.GetFloatParam AOFACTOR flashlightParams 1,
                flashlightContext.GetFloatParam SSAOFACTOR flashlightParams 1
                  * (if flashlightContext.UsingFlashlight = true then
                      sampleState.flashlightState.m_flAmbientOcclusion
                    else 1)])
      ∧ (∃ cmds, drawBranch 32 texturedParams sampleContext sampleState = some cmds
          ∧ registerValue PSReg.PSREG_MRAO_FACTORS cmds
              = some [sampleContext.GetFloatParam METALNESSFACTOR texturedParams 1,
                  sampleContext.GetFloatParam ROUGHNESSFACTOR texturedParams 1,
                  sampleContext.GetFloatParam AOFACTOR texturedParams 1,
                  sampleContext.GetFloatParam SSAOFACTOR texturedParams 1]) :=
  have a := C13_factor_registers flashlightParams flashlightContext sampleState 32
    (by decide) (by decide)
  have b := C13_factor_registers texturedParams sampleContext sampleState 32
    (by decide) (by decide)
  ⟨a.elim fun cmds h => ⟨cmds, h.1, h.2.1⟩,
   b.elim fun cmds h => ⟨cmds, h.1, h.2.2.2 (by decide)⟩⟩

/-- C14: the snapshot sets one static vertex-shader key and one static pixel-shader
key; their `WORLD_NORMAL` combos are equal, and are true exactly when
(1 if `MATERIAL_VAR2_USE_GBUFFER0` is set else 0) + 2 × (1 if
`MATERIAL_VAR2_USE_GBUFFER1` is set else 0) equals
`ENABLE_FIXED_LIGHTING_OUTPUTNORMAL_AND_DEPTH`. -/
theorem C14_world_normal (params : Params) (ctx : ShaderContext) :
    ∃ vkey pkey, staticVertexShaderKeys (snapshotBranch params ctx) = [vkey]
      ∧ staticPixelShaderKeys (snapshotBranch params ctx) = [pkey]
      ∧ vkey.WORLD_NORMAL = pkey.WORLD_NORMAL
      ∧ (vkey.WORLD_NORMAL = true
          ↔ ((if ctx.flags.MATERIAL_VAR2_USE_GBUFFER0 = true then 1 else 0)
              + 2 * (if ctx.flags.MATERIAL_VAR2_USE_GBUFFER1 = true then 1 else 0) : Int)
            = ctx.ENABLE_FIXED_LIGHTING_OUTPUTNORMAL_AND_DEPTH) := by
  refine ⟨_, _, staticVertexShaderKeys_snapshotBranch params ctx,
    staticPixelShaderKeys_snapshotBranch params ctx, rfl, ?_⟩
  simp only [staticVertexShaderKey, worldNormal, beq_iff_eq]
  constructor <;> intro h <;> exact h.symm

/-- C15 (counterexample): an alpha-tested and a non-alpha-tested run of the same empty
material have equal static vertex and pixel keys, yet the first enables alpha
testing and the second does not, so the two snapshots differ. -/
theorem C15_counterexample :
    staticVertexShaderKey emptyParams alphaTestedContext
        = staticVertexShaderKey emptyParams sampleContext
      ∧ staticPixelShaderKey emptyParams alphaTestedContext
          = staticPixelShaderKey emptyParams sampleContext
      ∧ alphaTestCalls (snapshotBranch emptyParams alphaTestedContext)
          = [ShadowCmd.EnableAlphaTest true]
      ∧ alphaTestCalls (snapshotBranch emptyParams sampleContext)
          = [ShadowCmd.EnableAlphaTest false]
      ∧ snapshotBranch emptyParams alphaTestedContext
          ≠ snapshotBranch emptyParams sampleContext := by
  refine ⟨by decide, by decide, by decide, by decide, ?_⟩
  intro h
  have h2 := congrArg alphaTestCalls h
  revert h2
  decide

/-- C15 (as amended): two snapshot runs whose static vertex and pixel keys are equal
and which also agree on the alpha-test flag, the `ALPHATESTREFERENCE` value, the
blend type evaluated for the base texture, whether the envmap parameter is a
texture, the HDR type and the lightmap scale factor make the same calls in the
same order. -/
theorem C15_snapshot_determined (params1 params2 : Params) (ctx1 ctx2 : ShaderContext)
    (hv : staticVertexShaderKey params1 ctx1 = staticVertexShaderKey params2 ctx2)
    (hp : staticPixelShaderKey params1 ctx1 = staticPixelShaderKey params2 ctx2)
    (halpha : ctx1.flags.MATERIAL_VAR_ALPHATEST = ctx2.flags.MATERIAL_VAR_ALPHATEST)
    (href : (params1 ALPHATESTREFERENCE).floatValue = (params2 ALPHATESTREFERENCE).floatValue)
    (hblend : ctx1.EvaluateBlendRequirements BASETEXTURE true
      = ctx2.EvaluateBlendRequirements BASETEXTURE true)
    (henv : (params1 ENVMAP).isTexture = (params2 ENVMAP).isTexture)
    (hhdr : ctx1.hw.GetHDRType = ctx2.hw.GetHDRType)
    (hscale : ctx1.GetLightMapScaleFactor = ctx2.GetLightMapScaleFactor) :
    snapshotBranch params1 ctx1 = snapshotBranch params2 ctx2 := by
  have hF : ctx1.UsingFlashlight = ctx2.UsingFlashlight := by
    have := congrArg StaticPixelShaderKey.FLASHLIGHT hp
    simpa [staticPixelShaderKey, drawLocals] using this
  have hM : ctx1.flags.MATERIAL_VAR_MODEL = ctx2.flags.MATERIAL_VAR_MODEL := by
    have := congrArg StaticVertexShaderKey.LIGHTMAPPED hv
    simpa [staticVertexShaderKey, drawLocals] using this
  have hL : (params1 LIGHTWARPTEXTURE).isTexture = (params2 LIGHTWARPTEXTURE).isTexture := by
    have := congrArg StaticPixelShaderKey.LIGHTWARPTEXTURE hp
    simpa [staticPixelShaderKey, drawLocals, SetupVars] using this
  simp only [snapshotBranch, snapshotAlphaBlend, snapshotSamplers, snapshotShaders, hv, hp]
  simp only [drawLocals, SetupVars]
  simp only [hF, hM, hL, halpha, href, hblend, henv, hhdr, hscale]

/-- C15 (witness): two different materials with the same static keys and the same
render-state inputs give the same snapshot. -/
theorem C15_snapshot_determined_witness :
    ssrParams SSRINTENSITY ≠ ssrTunedParams SSRINTENSITY
      ∧ snapshotBranch ssrParams sampleContext = snapshotBranch ssrTunedParams sampleContext :=
  ⟨by decide,
   C15_snapshot_determined ssrParams ssrTunedParams sampleContext sampleContext (by decide)
    (by decide) rfl (by decide) rfl (by decide) rfl rfl⟩

/-- C16: the draw writes pixel-shader register 50, and likewise register 51, exactly
when `ENABLESSR` equals 1 and `mat_pbr_ssr` is on; otherwise neither register
is written. -/
theorem C16_ssr_registers_written_iff (params : Params) (ctx : ShaderContext) (st : DrawState)
    (fuel : Nat) (hf : 32 ≤ fuel) (hw : envWidthInRange params = true) :
    ∃ cmds, drawBranch fuel params ctx st = some cmds
      ∧ ((registerValue (PSReg.number 50) cmds).isSome = true
          ↔ ((params ENABLESSR).intValue = 1 ∧ ctx.cvars.mat_pbr_ssr = true))
      ∧ ((registerValue (PSReg.number 51) cmds).isSome = true
          ↔ ((params ENABLESSR).intValue = 1 ∧ ctx.cvars.mat_pbr_ssr = true))
      ∧ (¬ ((params ENABLESSR).intValue = 1 ∧ ctx.cvars.mat_pbr_ssr = true) →
          registerValue (PSReg.number 50) cmds = none
            ∧ registerValue (PSReg.number 51) cmds = none) := by
  refine ⟨_, drawBranch_returns fuel hf params ctx st hw, ?_, ?_, ?_⟩
  · rw [registerValue_drawCommands_ssrParams]
    split_ifs with h <;> simp [h]
  · rw [registerValue_drawCommands_ssrParams2]
    split_ifs with h <;> simp [h]
  · intro h
    rw [registerValue_drawCommands_ssrParams, registerValue_drawCommands_ssrParams2,
      if_neg h, if_neg h]
    exact ⟨rfl, rfl⟩

/-- C16 (witness): a material that leaves `ENABLESSR` at 0 gets neither register
written, and one that sets it to 1 gets both written while `mat_pbr_ssr` is
on. -/
theorem C16_ssr_registers_written_iff_witness :
    (∃ cmds, drawBranch 32 emptyParams sampleContext sampleState = some cmds
        ∧ registerValue (PSReg.number 50) cmds = none
        ∧ registerValue (PSReg.number 51) cmds = none)
      ∧ (∃ cmds, drawBranch 32 ssrParams sampleContext sampleState = some cmds
          ∧ (registerValue (PSReg.number 50) cmds).isSome = true
          ∧ (registerValue (PSReg.number 51) cmds).isSome = true) :=
  ⟨(C16_ssr_registers_written_iff emptyParams sampleContext sampleState 32 (by decide)
      (by decide)).elim fun cmds h => ⟨cmds, h.1, h.2.2.2 (by decide)⟩,
   (C16_ssr_registers_written_iff ssrParams sampleContext sampleState 32 (by decide)
      (by decide)).elim fun cmds h =>
        ⟨cmds, h.1, h.2.1.mpr ⟨by decide, by decide⟩, h.2.2.1.mpr ⟨by decide, by decide⟩⟩⟩

/-- C17: whenever `NORMALTEXTURE` is defined, after `SHADER_INIT_PARAMS` the `BUMPMAP`
parameter holds `NORMALTEXTURE`'s string value, whatever `BUMPMAP` held before
(defined or not). -/
theorem C17_normaltexture_overwrites (hw : HardwareConfig) (params : Params)
    (hN : (params NORMALTEXTURE).isDefined = true) :
    (SHADER_INIT_PARAMS hw params BUMPMAP).stringValue = (params NORMALTEXTURE).stringValue
      ∧ ∀ prior : MaterialVar,
          (SHADER_INIT_PARAMS hw (params.set BUMPMAP prior) BUMPMAP).stringValue
            = (params NORMALTEXTURE).stringValue := by
  constructor
  · rw [SHADER_INIT_PARAMS_BUMPMAP, if_pos hN]
    rfl
  · intro prior
    have hsame : (params.set BUMPMAP prior) NORMALTEXTURE = params NORMALTEXTURE := by
      simp [Params.set]
    rw [SHADER_INIT_PARAMS_BUMPMAP, hsame, if_pos hN]
    rfl

/-- C17 (witness): a material defining both parameters ends with the deprecated
parameter's string in `BUMPMAP`. -/
theorem C17_normaltexture_overwrites_witness :
    (bothNormalParams BUMPMAP).isDefined = true
      ∧ (SHADER_INIT_PARAMS sampleContext.hw bothNormalParams BUMPMAP).stringValue
          = (bothNormalParams NORMALTEXTURE).stringValue
      ∧ ∀ prior : MaterialVar,
          (SHADER_INIT_PARAMS sampleContext.hw (bothNormalParams.set BUMPMAP prior)
              BUMPMAP).stringValue
            = (bothNormalParams NORMALTEXTURE).stringValue :=
  ⟨by decide, C17_normaltexture_overwrites sampleContext.hw bothNormalParams (by decide)⟩

/-- C18: two materials that differ only in `SSRINTENSITY`, `SSRQUALITY` and
`SSRROUGHNESSTHRESHOLD`, drawn under the same console variables and renderer
state, get the same values in registers 50 and 51; when screen-space
reflections are active these are {0.5, 0.25, 0.1, mat_pbr_ssr_intensity} and
{mat_pbr_ssr_step_count, 0.35, 0.5, mat_pbr_ssr_roughness_threshold}. -/
theorem C18_ssr_registers_ignore_material (params1 params2 : Params) (ctx : ShaderContext)
    (st : DrawState) (fuel : Nat) (hf : 32 ≤ fuel)
    (hw : envWidthInRange params1 = true)
    (hsame : ∀ i : Int, i ≠ SSRINTENSITY → i ≠ SSRQUALITY → i ≠ SSRROUGHNESSTHRESHOLD →
      params1 i = params2 i) :
    ∃ cmds1 cmds2, drawBranch fuel params1 ctx st = some cmds1
      ∧ drawBranch fuel params2 ctx st = some cmds2
      ∧ registerValue (PSReg.number 50) cmds1 = registerValue (PSReg.number 50) cmds2
      ∧ registerValue (PSReg.number 51) cmds1 = registerValue (PSReg.number 51) cmds2
      ∧ ((params1 ENABLESSR).intValue = 1 ∧ ctx.cvars.mat_pbr_ssr = true →
          registerValue (PSReg.number 50) cmds1
              = some [1 / 2, 1 / 4, 1 / 10, ctx.cvars.mat_pbr_ssr_intensity]
            ∧ registerValue (PSReg.number 51) cmds1
              = some [(ctx.cvars.mat_pbr_ssr_step_count : ℚ), 35 / 100, 1 / 2,
                  ctx.cvars.mat_pbr_ssr_roughness_threshold]) := by
  have henv : params1 ENVMAP = params2 ENVMAP :=
    hsame ENVMAP (by decide) (by decide) (by decide)
  have hssr : params1 ENABLESSR = params2 ENABLESSR :=
    hsame ENABLESSR (by decide) (by decide) (by decide)
  have hw2 : envWidthInRange params2 = true := by
    simp only [envWidthInRange] at hw ⊢
    rw [← henv]
    exact hw
  refine ⟨_, _, drawBranch_returns fuel hf params1 ctx st hw,
    drawBranch_returns fuel hf params2 ctx st hw2, ?_, ?_, ?_⟩
  · rw [registerValue_drawCommands_ssrParams, registerValue_drawCommands_ssrParams, hssr]
  · rw [registerValue_drawCommands_ssrParams2, registerValue_drawCommands_ssrParams2, hssr]
  · intro h
    rw [registerValue_drawCommands_ssrParams, registerValue_drawCommands_ssrParams2,
      if_pos h, if_pos h]
    exact ⟨rfl, rfl⟩

/-- C18 (witness): the SSR sample material and the same material with its three SSR
tuning parameters changed. -/
theorem C18_ssr_registers_ignore_material_witness :
    ssrParams SSRINTENSITY ≠ ssrTunedParams SSRINTENSITY
      ∧ ∃ cmds1 cmds2, drawBranch 32 ssrParams sampleContext sampleState = some cmds1
          ∧ drawBranch 32 ssrTunedParams sampleContext sampleState = some cmds2
          ∧ registerValue (PSReg.number 50) cmds1 = registerValue (PSReg.number 50) cmds2
          ∧ registerValue (PSReg.number 51) cmds1 = registerValue (PSReg.number 51) cmds2
          ∧ registerValue (PSReg.number 50) cmds1
              = some [1 / 2, 1 / 4, 1 / 10, sampleContext.cvars.mat_pbr_ssr_intensity]
          ∧ registerValue (PSReg.number 51) cmds1
              = some [(sampleContext.cvars.mat_pbr_ssr_step_count : ℚ), 35 / 100, 1 / 2,
                  sampleContext.cvars.mat_pbr_ssr_roughness_threshold] :=
  ⟨by decide,
   (C18_ssr_registers_ignore_material ssrParams ssrTunedParams sampleContext sampleState 32
      (by decide) (by decide) ssrTunedParams_same).elim fun cmds1 h =>
    h.elim fun cmds2 g =>
      ⟨cmds1, cmds2, g.1, g.2.1, g.2.2.1, g.2.2.2.1,
        (g.2.2.2.2 ⟨by decide, by decide⟩).1, (g.2.2.2.2 ⟨by decide, by decide⟩).2⟩⟩

end PBR
